import Mathlib

/-!
# Woof sound layer: channel pool and music dispatcher

Shallow embedding of `src/i_sound.c`.  Global variables of the C file become
fields of an explicit state record; the function-pointer tables of the sound
and music modules become records of functions over an abstract backend
state, and every call made through them is appended to a call log.
`I_Error` (which terminates the process) and accesses outside an array or
through `NULL` are results of type `Fault`.
-/

namespace Woof

/-! ## Sound: data model -/

/-- Address of an `sfxinfo_t`; the address `0` is `NULL`. -/
abbrev sfxinfo_ptr := Nat

/-- Channel slot, `channel_info_t` of the source. -/
structure channel_info_t where
  sfx : sfxinfo_ptr
  enabled : Bool
  idnum : Int
deriving DecidableEq, Repr

/-- Calls made through the `sound_module` pointer. -/
inductive SoundCall where
  | CacheSound (sfx : sfxinfo_ptr)
  | StartSound (channel : Int) (sfx : sfxinfo_ptr) (pitch : Int)
  | StopSound (channel : Int)
  | SoundIsPlaying (channel : Int)
  | UpdateSoundParams (channel volume separation : Int)
deriving DecidableEq, Repr

/-- The members of `sound_module_t` used by the channel pool, as functions
over the backend's own state `β`. -/
structure sound_module_t (β : Type) where
  CacheSound : β → sfxinfo_ptr → Bool × β
  StartSound : β → Int → sfxinfo_ptr → Int → Bool × β
  StopSound : β → Int → β
  SoundIsPlaying : β → Int → Bool × β
  UpdateSoundParams : β → Int → Int → Int → β

/-- Ways a call can fail to return: `I_Error` ends the process with a
message; an access outside an array or through `NULL` is undefined. -/
inductive Fault where
  | I_Error (msg : String)
  | undefined_access
deriving DecidableEq, Repr

/-- Compile-time parameters: the constant `MAX_CHANNELS` (defined outside
`i_sound.c`) and whether `RANGECHECK` is defined. -/
structure Build where
  MAX_CHANNELS : Nat
  RANGECHECK : Bool
deriving DecidableEq, Repr

/-- The globals of the sound half of `i_sound.c`: `snd_init`, `channelinfo`,
the `static unsigned int id` of `I_StartSound`, together with the state of
the backend behind `sound_module` and the log of calls made to it.
`channelinfo` is read and written only at indices below `MAX_CHANNELS`. -/
structure SoundState (β : Type) where
  snd_init : Bool
  channelinfo : Nat → channel_info_t
  id : Nat
  backend : β
  calls : List SoundCall

/-- Width of `unsigned int`. -/
def UINT_BITS : Nat := 32

/-- Conversion of an `unsigned int` value to `int` (two's complement). -/
def int_of_unsigned (u : Nat) : Int :=
  if u % 2 ^ UINT_BITS < 2 ^ (UINT_BITS - 1) then ((u % 2 ^ UINT_BITS : Nat) : Int)
  else ((u % 2 ^ UINT_BITS : Nat) : Int) - 2 ^ UINT_BITS

/-- Value of an `int` addition or subtraction whose exact result is `x`:
`x` itself when it lies in the range of `int`, and otherwise `x` reduced
modulo `2^32` into that range (two's complement wrap-around). -/
def wrap_int (x : Int) : Int :=
  (x + 2 ^ (UINT_BITS - 1)) % 2 ^ UINT_BITS - 2 ^ (UINT_BITS - 1)

/-- The test `channel < 0 || channel >= MAX_CHANNELS`. -/
def out_of_range (B : Build) (channel : Int) : Bool :=
  decide (channel < 0) || decide (channel ≥ (B.MAX_CHANNELS : Int))

/-! ## Sound: operations -/

/-- `StopChannel`. -/
def StopChannel {β : Type} (B : Build) (M : sound_module_t β) (s : SoundState β)
    (channel : Int) : Except Fault (SoundState β) :=
  if B.RANGECHECK && out_of_range B channel then .ok s
  else if out_of_range B channel then .error Fault.undefined_access
  else if (s.channelinfo channel.toNat).enabled then
    .ok { s with
      backend := M.StopSound s.backend channel
      calls := s.calls ++ [SoundCall.StopSound channel]
      channelinfo := Function.update s.channelinfo channel.toNat
        { s.channelinfo channel.toNat with enabled := false } }
  else .ok s

/-- `I_UpdateSoundParams`. -/
def I_UpdateSoundParams {β : Type} (B : Build) (M : sound_module_t β) (s : SoundState β)
    (channel volume separation : Int) : Except Fault (SoundState β) :=
  if !s.snd_init then .ok s
  else if B.RANGECHECK && out_of_range B channel then
    .error (Fault.I_Error "I_UpdateSoundParams: channel out of range")
  else
    .ok { s with
      backend := M.UpdateSoundParams s.backend channel volume separation
      calls := s.calls ++ [SoundCall.UpdateSoundParams channel volume separation] }

/-- The first loop of `I_SetChannels`: `memset` of the slots `i`, `i+1`, ...
below `MAX_CHANNELS` (`fuel` bounds the number of iterations). -/
def I_SetChannels.reset (MAX : Nat) : Nat → Nat → (Nat → channel_info_t) → (Nat → channel_info_t)
  | 0, _, ci => ci
  | fuel + 1, i, ci =>
    if i < MAX then
      I_SetChannels.reset MAX fuel (i + 1)
        (Function.update ci i { sfx := 0, enabled := false, idnum := 0 })
    else ci

/-- `I_SetChannels`.  The second loop fills the floating-point `steptable`,
which is not part of this state. -/
def I_SetChannels {β : Type} (B : Build) (s : SoundState β) : SoundState β :=
  { s with channelinfo := I_SetChannels.reset B.MAX_CHANNELS B.MAX_CHANNELS 0 s.channelinfo }

/-- The search loop of `I_StartSound`: starting from `channel`, the first
index below `MAX_CHANNELS` whose slot is not enabled, or `MAX_CHANNELS`
(`fuel` bounds the number of iterations). -/
def I_StartSound.scan (MAX : Nat) (ci : Nat → channel_info_t) : Nat → Nat → Nat
  | 0, channel => channel
  | fuel + 1, channel =>
    if channel < MAX then
      if (ci channel).enabled == false then channel
      else I_StartSound.scan MAX ci fuel (channel + 1)
    else channel

/-- `I_StartSound`: the returned `int` and the state after the call. -/
def I_StartSound {β : Type} (B : Build) (M : sound_module_t β) (s : SoundState β)
    (sfx : sfxinfo_ptr) (vol sep pitch : Int) : Except Fault (Int × SoundState β) :=
  if !s.snd_init then .ok (-1, s)
  else
    let channel := I_StartSound.scan B.MAX_CHANNELS s.channelinfo B.MAX_CHANNELS 0
    if channel == B.MAX_CHANNELS then .ok (-1, s)
    else
      match StopChannel B M s channel with
      | .error e => .error e
      | .ok s1 =>
        let r := M.CacheSound s1.backend sfx
        let s2 : SoundState β :=
          { s1 with backend := r.2, calls := s1.calls ++ [SoundCall.CacheSound sfx] }
        if r.1 == false then .ok (-1, s2)
        else
          let s3 : SoundState β :=
            { s2 with
              channelinfo := Function.update s2.channelinfo channel
                { sfx := sfx, enabled := true, idnum := int_of_unsigned s2.id }
              id := (s2.id + 1) % 2 ^ UINT_BITS }
          match I_UpdateSoundParams B M s3 channel vol sep with
          | .error e => .error e
          | .ok s4 =>
            let r2 := M.StartSound s4.backend channel sfx pitch
            let s5 : SoundState β :=
              { s4 with
                backend := r2.2
                calls := s4.calls ++ [SoundCall.StartSound channel sfx pitch] }
            if r2.1 == false then
              match StopChannel B M s5 channel with
              | .error e => .error e
              | .ok s6 => .ok (-1, s6)
            else .ok ((channel : Int), s5)

/-- `I_StopSound`. -/
def I_StopSound {β : Type} (B : Build) (M : sound_module_t β) (s : SoundState β)
    (channel : Int) : Except Fault (SoundState β) :=
  if !s.snd_init then .ok s
  else if B.RANGECHECK && out_of_range B channel then
    .error (Fault.I_Error "I_StopSound: channel out of range")
  else StopChannel B M s channel

/-- `I_SoundIsPlaying`. -/
def I_SoundIsPlaying {β : Type} (B : Build) (M : sound_module_t β) (s : SoundState β)
    (channel : Int) : Except Fault (Bool × SoundState β) :=
  if !s.snd_init then .ok (false, s)
  else if B.RANGECHECK && out_of_range B channel then
    .error (Fault.I_Error "I_SoundIsPlaying: channel out of range")
  else
    let r := M.SoundIsPlaying s.backend channel
    .ok (r.1, { s with backend := r.2, calls := s.calls ++ [SoundCall.SoundIsPlaying channel] })

/-- `I_SoundID`. -/
def I_SoundID {β : Type} (B : Build) (s : SoundState β) (channel : Int) :
    Except Fault (Int × SoundState β) :=
  if !s.snd_init then .ok (0, s)
  else if B.RANGECHECK && out_of_range B channel then
    .error (Fault.I_Error "I_SoundID: channel out of range\n")
  else if out_of_range B channel then .error Fault.undefined_access
  else .ok ((s.channelinfo channel.toNat).idnum, s)

/-! ## Sound: a small concrete backend, used to evaluate the operations -/

/-- A backend that keeps the list of channels it is playing on.  Caching
fails for the `NULL` descriptor and starting fails for a negative pitch. -/
def list_sound_module : sound_module_t (List Int) where
  CacheSound b sfx := (sfx != 0, b)
  StartSound b channel _ pitch := if pitch < 0 then (false, b) else (true, channel :: b)
  StopSound b channel := b.filter (fun c => c != channel)
  SoundIsPlaying b channel := (b.contains channel, b)
  UpdateSoundParams b _ _ _ := b

/-- State right after a successful `I_InitSound` and `I_SetChannels`:
every slot zeroed, counter at `0`. -/
def sound_start : SoundState (List Int) where
  snd_init := true
  channelinfo := fun _ => { sfx := 0, enabled := false, idnum := 0 }
  id := 0
  backend := []
  calls := []

/-- A pool in which every slot is occupied. -/
def sound_full : SoundState (List Int) where
  snd_init := true
  channelinfo := fun i => { sfx := 5, enabled := true, idnum := (i : Int) }
  id := 8
  backend := [0, 1]
  calls := []

/-- A pool whose slot `0` is playing descriptor `5` (issued id `0`); the
other slots are zeroed and the counter stands at `1`. -/
def sound_one_busy : SoundState (List Int) where
  snd_init := true
  channelinfo := fun i =>
    if i = 0 then { sfx := 5, enabled := true, idnum := 0 }
    else { sfx := 0, enabled := false, idnum := 0 }
  id := 1
  backend := [0]
  calls := []

/-- A build with four channels and range checks compiled out. -/
def build4 : Build := { MAX_CHANNELS := 4, RANGECHECK := false }

/-- One call of the pool interface made by the game. -/
inductive PoolCall where
  | StartSound (sfx : sfxinfo_ptr) (vol sep pitch : Int)
  | StopSound (channel : Int)
  | SetChannels
deriving DecidableEq, Repr

/-- Runs a sequence of pool calls from `s` and lists, in call order, the id
that `I_SoundID` reads back on the returned channel right after each
`I_StartSound` that returned a channel.  A fault ends the run. -/
def issued_ids {β : Type} (B : Build) (M : sound_module_t β) :
    SoundState β → List PoolCall → List Int
  | _, [] => []
  | s, PoolCall.StartSound sfx vol sep pitch :: rest =>
    match I_StartSound B M s sfx vol sep pitch with
    | .error _ => []
    | .ok (r, s1) =>
      if r = -1 then issued_ids B M s1 rest
      else
        match I_SoundID B s1 r with
        | .error _ => []
        | .ok (v, s2) => v :: issued_ids B M s2 rest
  | s, PoolCall.StopSound channel :: rest =>
    match I_StopSound B M s channel with
    | .error _ => []
    | .ok s1 => issued_ids B M s1 rest
  | s, PoolCall.SetChannels :: rest => issued_ids B M (I_SetChannels B s) rest

/-- Number of `I_StartSound` calls in a sequence of pool calls. -/
def start_calls : List PoolCall → Nat
  | [] => 0
  | PoolCall.StartSound _ _ _ _ :: rest => start_calls rest + 1
  | PoolCall.StopSound _ :: rest => start_calls rest
  | PoolCall.SetChannels :: rest => start_calls rest

/-- The call sequence "start descriptor `7`, stop channel `0`" repeated `n`
times. -/
def start_stop_rounds : Nat → List PoolCall
  | 0 => []
  | n + 1 => PoolCall.StartSound 7 127 128 64 :: PoolCall.StopSound 0 :: start_stop_rounds n

/-! ## Music: data model -/

/-- The music modules declared `extern` in `i_sound.c`; a value of this type
stands for the address of the module. -/
inductive music_module_ref where
  | music_win_module
  | music_mac_module
  | music_fl_module
  | music_oal_module
  | music_opl_module
deriving DecidableEq, Repr

/-- Entry of the `music_modules` table, `music_modules_t` of the source. -/
structure music_modules_t where
  module : music_module_ref
  num_devices : Int
deriving DecidableEq, Repr

/-- Calls made through a music module pointer, with the value returned. -/
inductive MusicCall where
  | I_InitMusic (m : music_module_ref) (device : Int) (result : Bool)
  | I_ShutdownMusic (m : music_module_ref)
  | I_SetMusicVolume (m : music_module_ref) (volume : Int)
  | I_RegisterSong (m : music_module_ref) (data : List Nat) (size : Int) (handle : Nat)
  | I_DeviceList (m : music_module_ref)
deriving DecidableEq, Repr

/-- The members of `music_module_t` used by the dispatcher functions below,
as functions over the state `Ω` of the world outside `i_sound.c`.  A song
handle (`void *`) is an address, `0` being `NULL`.  `I_DeviceList` yields the
array of device names it returns together with the value it stores through
its `current_device` argument. -/
structure music_module_t (Ω : Type) where
  I_InitMusic : Ω → Int → Bool × Ω
  I_ShutdownMusic : Ω → Ω
  I_SetMusicVolume : Ω → Int → Ω
  I_RegisterSong : Ω → List Nat → Int → Nat × Ω
  I_DeviceList : Ω → (List String × Int) × Ω

/-- The globals of the music half of `i_sound.c` (`nomusicparm` and
`snd_MusicVolume` are declared elsewhere), the world state and the log of
calls made to the modules.  `exit_hooks` lists the handlers passed to
`I_AtExit`. -/
structure MusicState (Ω : Type) where
  nomusicparm : Bool
  music_modules : List music_modules_t
  midi_player_module : Option music_module_ref
  active_module : Option music_module_ref
  midi_player : Int
  snd_MusicVolume : Int
  world : Ω
  calls : List MusicCall
  exit_hooks : List String

/-- The comparison `i < arrlen(music_modules)` for an `int i`.  `arrlen` is a
quotient of `sizeof` values, so the comparison is unsigned and a negative
`i` (converted to a value above every array length) fails it. -/
def index_below (i : Int) (n : Nat) : Bool :=
  decide (0 ≤ i) && decide (i < (n : Int))

/-- The array access `music_modules[i]`. -/
def table_at (tbl : List music_modules_t) (i : Int) : Option music_modules_t :=
  if i < 0 then none else tbl[i.toNat]?

/-! ## Music: operations -/

/-- The loop of `MidiPlayerFallback` over the entries `i`, `i+1`, ... of the
table (given as the list of entries still to try), followed by the
`I_Error` reached when the loop runs off the end. -/
def MidiPlayerFallback.loop {Ω : Type} (mods : music_module_ref → music_module_t Ω) :
    List music_modules_t → Nat → MusicState Ω → Except Fault (MusicState Ω)
  | [], _, _ =>
    .error (Fault.I_Error "MidiPlayerFallback: No music module could be initialized")
  | e :: rest, i, s =>
    let r := (mods e.module).I_InitMusic s.world 0
    let s1 : MusicState Ω :=
      { s with world := r.2, calls := s.calls ++ [MusicCall.I_InitMusic e.module 0 r.1] }
    if r.1 then
      .ok { s1 with
        midi_player := (i : Int)
        midi_player_module := some e.module
        active_module := some e.module }
    else MidiPlayerFallback.loop mods rest (i + 1) s1

/-- `MidiPlayerFallback`. -/
def MidiPlayerFallback {Ω : Type} (mods : music_module_ref → music_module_t Ω)
    (s : MusicState Ω) : Except Fault (MusicState Ω) :=
  MidiPlayerFallback.loop mods s.music_modules 0 s

/-- The loop of `I_SetMidiPlayer` over the entries `i`, `i+1`, ... of the
table (given as the list of entries still to visit): at the `break` it
yields the index `i`, the module and the reduced `device`; `none` when the
loop ends without `break`.  `accum`, `device` and `num_devices` are `int`s,
and so are the sums and the difference formed from them. -/
def I_SetMidiPlayer.loop :
    List music_modules_t → Nat → Int → Int → Option (Nat × music_module_ref × Int)
  | [], _, _, _ => none
  | e :: rest, i, accum, device =>
    if device ≥ accum ∧ device < wrap_int (accum + e.num_devices) then
      some (i, e.module, wrap_int (device - accum))
    else I_SetMidiPlayer.loop rest (i + 1) (wrap_int (accum + e.num_devices)) device

/-- `I_SetMidiPlayer`. -/
def I_SetMidiPlayer {Ω : Type} (mods : music_module_ref → music_module_t Ω)
    (s : MusicState Ω) (device : Int) : Except Fault (MusicState Ω) :=
  if s.nomusicparm then .ok s
  else
    match s.midi_player_module with
    | none => .error Fault.undefined_access
    | some old =>
      let s1 : MusicState Ω :=
        { s with
          world := (mods old).I_ShutdownMusic s.world
          calls := s.calls ++ [MusicCall.I_ShutdownMusic old] }
      let found := I_SetMidiPlayer.loop s1.music_modules 0 0 device
      let m : music_module_ref :=
        match found with
        | some (_, m, _) => m
        | none => old
      let s2 : MusicState Ω :=
        match found with
        | some (i, m, _) => { s1 with midi_player_module := some m, midi_player := (i : Int) }
        | none => s1
      let device2 : Int :=
        match found with
        | some (_, _, d) => d
        | none => device
      let r := (mods m).I_InitMusic s2.world device2
      let s3 : MusicState Ω :=
        { s2 with world := r.2, calls := s2.calls ++ [MusicCall.I_InitMusic m device2 r.1] }
      if r.1 then .ok { s3 with active_module := some m }
      else MidiPlayerFallback mods s3

/-- `I_InitMusic`, with the constant `DEFAULT_MIDI_DEVICE` (defined outside
`i_sound.c`) as a parameter. -/
def I_InitMusic {Ω : Type} (DEFAULT_MIDI_DEVICE : Int)
    (mods : music_module_ref → music_module_t Ω) (s : MusicState Ω) :
    Except Fault (Bool × MusicState Ω) :=
  if s.nomusicparm then .ok (false, s)
  else
    let r0 := (mods music_module_ref.music_oal_module).I_InitMusic s.world 0
    let s1 : MusicState Ω :=
      { s with
        world := r0.2
        calls := s.calls ++ [MusicCall.I_InitMusic music_module_ref.music_oal_module 0 r0.1]
        exit_hooks := s.exit_hooks ++ ["I_ShutdownMusic"] }
    if index_below s1.midi_player s1.music_modules.length then
      match table_at s1.music_modules s1.midi_player with
      | none => .error Fault.undefined_access
      | some e =>
        let r := (mods e.module).I_InitMusic s1.world DEFAULT_MIDI_DEVICE
        let s2 : MusicState Ω :=
          { s1 with
            midi_player_module := some e.module
            world := r.2
            calls := s1.calls ++ [MusicCall.I_InitMusic e.module DEFAULT_MIDI_DEVICE r.1] }
        if r.1 then .ok (true, { s2 with active_module := some e.module })
        else
          match MidiPlayerFallback mods s2 with
          | .error f => .error f
          | .ok s3 => .ok (true, s3)
    else
      match MidiPlayerFallback mods s1 with
      | .error f => .error f
      | .ok s3 => .ok (true, s3)

/-- The bytes of the string literal `"MThd"`. -/
def MThd : List Nat := [0x4D, 0x54, 0x68, 0x64]

/-- The bytes of the string literal `"MUS\x1a"`. -/
def MUS_1a : List Nat := [0x4D, 0x55, 0x53, 0x1A]

/-- `IsMid`: `len > 4 && !memcmp(mem, "MThd", 4)`. -/
def IsMid (mem : List Nat) (len : Int) : Bool :=
  decide (len > 4) && (mem.take 4 == MThd)

/-- `IsMus`: `len > 4 && !memcmp(mem, "MUS\x1a", 4)`. -/
def IsMus (mem : List Nat) (len : Int) : Bool :=
  decide (len > 4) && (mem.take 4 == MUS_1a)

/-- `I_RegisterSong`: the returned handle and the state after the call. -/
def I_RegisterSong {Ω : Type} (mods : music_module_ref → music_module_t Ω)
    (s : MusicState Ω) (data : List Nat) (size : Int) : Except Fault (Nat × MusicState Ω) :=
  let s1 : MusicState Ω :=
    if IsMus data size || IsMid data size then
      { s with active_module := s.midi_player_module }
    else
      let s0 : MusicState Ω :=
        if s.midi_player_module = some music_module_ref.music_opl_module then
          { s with
            world := (mods music_module_ref.music_opl_module).I_ShutdownMusic s.world
            calls := s.calls ++ [MusicCall.I_ShutdownMusic music_module_ref.music_opl_module] }
        else s
      { s0 with active_module := some music_module_ref.music_oal_module }
  match s1.active_module with
  | none => .error Fault.undefined_access
  | some a =>
    let w := (mods a).I_SetMusicVolume s1.world s1.snd_MusicVolume
    let r := (mods a).I_RegisterSong w data size
    .ok (r.1,
      { s1 with
        world := r.2
        calls := s1.calls ++ [MusicCall.I_SetMusicVolume a s1.snd_MusicVolume,
          MusicCall.I_RegisterSong a data size r.1] })

/-- Modelled from the spec: the dynamic arrays of `m_array.h`, which is not
among the sources.  An array (`NULL` when empty) is the list of its
elements in order, and `array_size` is its number of elements. -/
def array_size (v : List String) : Int := (v.length : Int)

/-- Modelled from the spec: `array_push` of `m_array.h`, which is not among
the sources, appends one element at the end of the array. -/
def array_push (v : List String) (x : String) : List String := v ++ [x]

/-- The inner loop of `I_DeviceList`: `array_push(devices, module_devices[k])`
for each `k` in order (the second argument lists the elements from index
`k` on). -/
def I_DeviceList.push_all : List String → List String → List String
  | devices, [] => devices
  | devices, x :: rest => I_DeviceList.push_all (array_push devices x) rest

/-- The values carried through the outer loop of `I_DeviceList`: the table
entries already rewritten, `devices`, `*current_device`, and the world and
call log. -/
structure DeviceListLoop (Ω : Type) where
  entries : List music_modules_t
  devices : List String
  current_device : Int
  world : Ω
  calls : List MusicCall

/-- The outer loop of `I_DeviceList` over the entries `i`, `i+1`, ... of the
table (given as the list of entries still to visit).  `*current_device` and
`module_device` are `int`s, and so is the sum stored. -/
def I_DeviceList.loop {Ω : Type} (mods : music_module_ref → music_module_t Ω)
    (midi_player : Int) :
    List music_modules_t → Nat → List String → Int → Ω → List MusicCall → DeviceListLoop Ω
  | [], _, devices, current_device, w, calls =>
    { entries := [], devices := devices, current_device := current_device,
      world := w, calls := calls }
  | e :: rest, i, devices, current_device, w, calls =>
    let r := (mods e.module).I_DeviceList w
    let module_devices := r.1.1
    let module_device := r.1.2
    let current1 : Int :=
      if midi_player = (i : Int) then wrap_int (array_size devices + module_device)
      else current_device
    let e1 : music_modules_t := { e with num_devices := array_size module_devices }
    let devices1 := I_DeviceList.push_all devices module_devices
    let out := I_DeviceList.loop mods midi_player rest (i + 1) devices1 current1 r.2
      (calls ++ [MusicCall.I_DeviceList e.module])
    { out with entries := e1 :: out.entries }

/-- `I_DeviceList`: the returned array, the value stored in `*current_device`,
and the state after the call. -/
def I_DeviceList {Ω : Type} (mods : music_module_ref → music_module_t Ω)
    (s : MusicState Ω) : (List String × Int) × MusicState Ω :=
  let out := I_DeviceList.loop mods s.midi_player s.music_modules 0 [] 0 s.world s.calls
  ((out.devices, out.current_device),
    { s with music_modules := out.entries, world := out.world, calls := out.calls })

/-! ## Music: notions used to state the properties -/

/-- What the `I_DeviceList` of each table entry returns (names and local
current index) when the entries are queried in table order from world `w`. -/
def listings {Ω : Type} (mods : music_module_ref → music_module_t Ω) :
    List music_modules_t → Ω → List (List String × Int)
  | [], _ => []
  | e :: rest, w =>
    ((mods e.module).I_DeviceList w).1
      :: listings mods rest ((mods e.module).I_DeviceList w).2

/-- Total number of devices in the first `k` of the given listings. -/
def listed_before (L : List (List String × Int)) (k : Nat) : Int :=
  ((L.take k).map (fun l => (l.1.length : Int))).sum

/-- Sum `n_0 + ... + n_{i-1}` of the device counts of the first `i` entries. -/
def devices_before (tbl : List music_modules_t) (i : Nat) : Int :=
  ((tbl.take i).map (fun e => e.num_devices)).sum

/-- World left by calling `I_InitMusic(0)` on each entry of `tbl` in order. -/
def world_after_inits {Ω : Type} (mods : music_module_ref → music_module_t Ω) :
    List music_modules_t → Ω → Ω
  | [], w => w
  | e :: rest, w => world_after_inits mods rest ((mods e.module).I_InitMusic w 0).2

/-- Entry `j` of the table fails `I_InitMusic(0)` when it is called after the
entries before it have been tried in order, starting from the world `w`
(`true` as well when the table has no entry `j`). -/
def init_fails_at {Ω : Type} (mods : music_module_ref → music_module_t Ω)
    (tbl : List music_modules_t) (w : Ω) (j : Nat) : Bool :=
  match tbl[j]? with
  | none => true
  | some e => !((mods e.module).I_InitMusic (world_after_inits mods (tbl.take j) w) 0).1

/-- State in which `I_InitMusic` enters `MidiPlayerFallback` when music is
not disabled and the preferred module did not initialise: after the OpenAL
`I_InitMusic(0)`, the registration of the exit hook and, if `midi_player`
indexes the table, the `I_InitMusic(DEFAULT_MIDI_DEVICE)` call on that
entry. -/
def before_fallback {Ω : Type} (DEFAULT_MIDI_DEVICE : Int)
    (mods : music_module_ref → music_module_t Ω) (s : MusicState Ω) : MusicState Ω :=
  let r0 := (mods music_module_ref.music_oal_module).I_InitMusic s.world 0
  let s1 : MusicState Ω :=
    { s with
      world := r0.2
      calls := s.calls ++ [MusicCall.I_InitMusic music_module_ref.music_oal_module 0 r0.1]
      exit_hooks := s.exit_hooks ++ ["I_ShutdownMusic"] }
  match (if index_below s.midi_player s.music_modules.length
      then table_at s.music_modules s.midi_player else none) with
  | none => s1
  | some e =>
    let r := (mods e.module).I_InitMusic s1.world DEFAULT_MIDI_DEVICE
    { s1 with
      midi_player_module := some e.module
      world := r.2
      calls := s1.calls ++ [MusicCall.I_InitMusic e.module DEFAULT_MIDI_DEVICE r.1] }

/-- The preferred module did not initialise: `midi_player` is outside the
table, or the `I_InitMusic(DEFAULT_MIDI_DEVICE)` call on its entry (made
right after the OpenAL one) returned `false`. -/
def preferred_fails {Ω : Type} (DEFAULT_MIDI_DEVICE : Int)
    (mods : music_module_ref → music_module_t Ω) (s : MusicState Ω) : Bool :=
  match (if index_below s.midi_player s.music_modules.length
      then table_at s.music_modules s.midi_player else none) with
  | none => true
  | some e =>
    !((mods e.module).I_InitMusic
      ((mods music_module_ref.music_oal_module).I_InitMusic s.world 0).2
      DEFAULT_MIDI_DEVICE).1

/-- The log entries of failed `I_InitMusic(0)` calls on the given entries. -/
def failed_inits (entries : List music_modules_t) : List MusicCall :=
  entries.map (fun e => MusicCall.I_InitMusic e.module 0 false)

/-! ## Music: small concrete modules, used to evaluate the operations -/

/-- Modules whose world is the list of modules currently initialised.  The
Windows and macOS modules never initialise; FluidSynth has one device, OPL
two; OpenAL always initialises.  Registering yields handle `1` for a
non-empty buffer on an initialised module and `NULL` otherwise. -/
def list_music_modules (m : music_module_ref) : music_module_t (List music_module_ref) where
  I_InitMusic w device :=
    match m with
    | music_module_ref.music_win_module => (false, w)
    | music_module_ref.music_mac_module => (false, w)
    | music_module_ref.music_fl_module => if device = 0 then (true, m :: w) else (false, w)
    | music_module_ref.music_opl_module =>
      if 0 ≤ device ∧ device < 2 then (true, m :: w) else (false, w)
    | music_module_ref.music_oal_module => (true, m :: w)
  I_ShutdownMusic w := w.filter (fun x => x != m)
  I_SetMusicVolume w _ := w
  I_RegisterSong w data _ := (if w.contains m && !data.isEmpty then 1 else 0, w)
  I_DeviceList w :=
    match m with
    | music_module_ref.music_win_module => ((["Wavetable", "Port A", "Port B"], 2), w)
    | music_module_ref.music_mac_module => ((["Native"], 0), w)
    | music_module_ref.music_fl_module => ((["FluidSynth"], 0), w)
    | music_module_ref.music_opl_module => ((["OPL2", "OPL3"], 1), w)
    | music_module_ref.music_oal_module => (([], 0), w)

/-- Table with device counts `[3, 1, 2]`. -/
def table_3_1_2 : List music_modules_t :=
  [ { module := music_module_ref.music_win_module, num_devices := 3 },
    { module := music_module_ref.music_fl_module, num_devices := 1 },
    { module := music_module_ref.music_opl_module, num_devices := 2 } ]

/-- Music state with FluidSynth (table index `1`) installed and active. -/
def music_ready : MusicState (List music_module_ref) where
  nomusicparm := false
  music_modules := table_3_1_2
  midi_player_module := some music_module_ref.music_fl_module
  active_module := some music_module_ref.music_fl_module
  midi_player := 1
  snd_MusicVolume := 8
  world := [music_module_ref.music_fl_module, music_module_ref.music_oal_module]
  calls := []
  exit_hooks := ["I_ShutdownMusic"]

/-- Table whose cached device counts `[1, 2147483647, 1]` add up to more than
the largest `int`. -/
def table_overflow : List music_modules_t :=
  [ { module := music_module_ref.music_win_module, num_devices := 1 },
    { module := music_module_ref.music_fl_module, num_devices := 2147483647 },
    { module := music_module_ref.music_opl_module, num_devices := 1 } ]

/-- Music state with the table `table_overflow` and OPL (table index `2`)
installed and active. -/
def music_overflow : MusicState (List music_module_ref) where
  nomusicparm := false
  music_modules := table_overflow
  midi_player_module := some music_module_ref.music_opl_module
  active_module := some music_module_ref.music_opl_module
  midi_player := 2
  snd_MusicVolume := 8
  world := [music_module_ref.music_opl_module, music_module_ref.music_oal_module]
  calls := []
  exit_hooks := ["I_ShutdownMusic"]

/-- Music state in which the table still caches the count `1` for every
module, as in the initialiser of `music_modules`, and OPL (table index `2`)
is the selected module. -/
def music_uncounted : MusicState (List music_module_ref) where
  nomusicparm := false
  music_modules :=
    [ { module := music_module_ref.music_win_module, num_devices := 1 },
      { module := music_module_ref.music_fl_module, num_devices := 1 },
      { module := music_module_ref.music_opl_module, num_devices := 1 } ]
  midi_player_module := some music_module_ref.music_opl_module
  active_module := some music_module_ref.music_opl_module
  midi_player := 2
  snd_MusicVolume := 8
  world := [music_module_ref.music_opl_module, music_module_ref.music_oal_module]
  calls := []
  exit_hooks := ["I_ShutdownMusic"]

/-- Music state before `I_InitMusic`: nothing installed, `midi_player` `0`. -/
def music_boot : MusicState (List music_module_ref) where
  nomusicparm := false
  music_modules := table_3_1_2
  midi_player_module := none
  active_module := none
  midi_player := 0
  snd_MusicVolume := 8
  world := []
  calls := []
  exit_hooks := []

/-! ## macOS music backend (`i_macmusic.c`): data model -/

/-- Values of `MusicTimeStamp` (a 64-bit float), as the rational number a
finite value denotes; the functions below only compare them. -/
abbrev MusicTimeStamp := Rat

/-- Calls to the AudioToolbox API made by the playback functions. -/
inductive ToolboxCall where
  | MusicSequenceSetAUGraph
  | MusicPlayerSetSequence (null : Bool)
  | MusicPlayerPreroll
  | MusicSequenceGetTrackCount
  | MusicSequenceGetIndTrack (i : Nat)
  | MusicTrackGetProperty (track : Nat)
  | MusicPlayerSetTime (time : MusicTimeStamp)
  | MusicPlayerStart
  | MusicPlayerGetTime
  | MusicPlayerStop
deriving DecidableEq, Repr

/-- The AudioToolbox functions used by `I_MAC_PlaySong`, `I_MAC_StopSong` and
`I_MAC_UpdateMusic`, over the state `Ω` of the player, sequence and graph
objects.  A `Bool` result says whether the status returned was `noErr`; a
track (`MusicTrack`) is identified by a number.  The `Bool` argument of
`MusicPlayerSetSequence` says whether the sequence passed is `NULL`.
`MusicPlayerGetTime` yields the value written through its `time` argument. -/
structure AudioToolbox (Ω : Type) where
  MusicSequenceSetAUGraph : Ω → Bool × Ω
  MusicPlayerSetSequence : Ω → Bool → Bool × Ω
  MusicPlayerPreroll : Ω → Bool × Ω
  MusicSequenceGetTrackCount : Ω → (Bool × Nat) × Ω
  MusicSequenceGetIndTrack : Ω → Nat → (Bool × Nat) × Ω
  MusicTrackGetProperty : Ω → Nat → (Bool × MusicTimeStamp) × Ω
  MusicPlayerSetTime : Ω → MusicTimeStamp → Bool × Ω
  MusicPlayerStart : Ω → Bool × Ω
  MusicPlayerGetTime : Ω → MusicTimeStamp × Ω
  MusicPlayerStop : Ω → Bool × Ω

/-- The statics `music_initialized`, `is_playing`, `is_looping` and `endtime`
of `i_macmusic.c`, the state of the AudioToolbox objects held by the other
statics, and the log of API calls. -/
structure MacMusicState (Ω : Type) where
  music_initialized : Bool
  is_playing : Bool
  is_looping : Bool
  endtime : MusicTimeStamp
  toolbox : Ω
  calls : List ToolboxCall
deriving DecidableEq, Repr

/-! ## macOS music backend: operations -/

/-- The track loop of `I_MAC_PlaySong` for the tracks `i`, `i+1`, ... (as many
as `remaining`): `false` when a call failed and the function returns. -/
def I_MAC_PlaySong.tracks {Ω : Type} (T : AudioToolbox Ω) :
    Nat → Nat → MacMusicState Ω → Bool × MacMusicState Ω
  | 0, _, s => (true, s)
  | remaining + 1, i, s =>
    let r := T.MusicSequenceGetIndTrack s.toolbox i
    let s1 : MacMusicState Ω :=
      { s with toolbox := r.2, calls := s.calls ++ [ToolboxCall.MusicSequenceGetIndTrack i] }
    if r.1.1 = false then (false, s1)
    else
      let r2 := T.MusicTrackGetProperty s1.toolbox r.1.2
      let s2 : MacMusicState Ω :=
        { s1 with
          toolbox := r2.2
          calls := s1.calls ++ [ToolboxCall.MusicTrackGetProperty r.1.2] }
      if r2.1.1 = false then (false, s2)
      else
        let s3 : MacMusicState Ω :=
          if r2.1.2 > s2.endtime then { s2 with endtime := r2.1.2 } else s2
        I_MAC_PlaySong.tracks T remaining (i + 1) s3

/-- `I_MAC_PlaySong` (the `handle` argument is not used by the source). -/
def I_MAC_PlaySong {Ω : Type} (T : AudioToolbox Ω) (s : MacMusicState Ω)
    (_handle : Nat) (looping : Bool) : MacMusicState Ω :=
  if !s.music_initialized then s
  else
    let r1 := T.MusicSequenceSetAUGraph s.toolbox
    let s1 : MacMusicState Ω :=
      { s with toolbox := r1.2, calls := s.calls ++ [ToolboxCall.MusicSequenceSetAUGraph] }
    if r1.1 = false then s1
    else
      let r2 := T.MusicPlayerSetSequence s1.toolbox false
      let s2 : MacMusicState Ω :=
        { s1 with
          toolbox := r2.2
          calls := s1.calls ++ [ToolboxCall.MusicPlayerSetSequence false] }
      if r2.1 = false then s2
      else
        let r3 := T.MusicPlayerPreroll s2.toolbox
        let s3 : MacMusicState Ω :=
          { s2 with toolbox := r3.2, calls := s2.calls ++ [ToolboxCall.MusicPlayerPreroll] }
        if r3.1 = false then s3
        else
          let r4 := T.MusicSequenceGetTrackCount s3.toolbox
          let s4 : MacMusicState Ω :=
            { s3 with
              toolbox := r4.2
              calls := s3.calls ++ [ToolboxCall.MusicSequenceGetTrackCount] }
          if r4.1.1 = false then s4
          else
            let s5 : MacMusicState Ω := { s4 with endtime := 0 }
            let r5 := I_MAC_PlaySong.tracks T r4.1.2 0 s5
            if r5.1 = false then r5.2
            else
              let r6 := T.MusicPlayerSetTime r5.2.toolbox 0
              let s6 : MacMusicState Ω :=
                { r5.2 with
                  toolbox := r6.2
                  calls := r5.2.calls ++ [ToolboxCall.MusicPlayerSetTime 0] }
              if r6.1 = false then s6
              else
                let r7 := T.MusicPlayerStart s6.toolbox
                let s7 : MacMusicState Ω :=
                  { s6 with
                    toolbox := r7.2
                    calls := s6.calls ++ [ToolboxCall.MusicPlayerStart] }
                if r7.1 = false then s7
                else { s7 with is_playing := true, is_looping := looping }

/-- `I_MAC_StopSong` (the `handle` argument is not used by the source, nor
are the statuses returned by the two calls). -/
def I_MAC_StopSong {Ω : Type} (T : AudioToolbox Ω) (s : MacMusicState Ω)
    (_handle : Nat) : MacMusicState Ω :=
  if !s.music_initialized then s
  else
    let w1 := (T.MusicPlayerStop s.toolbox).2
    let w2 := (T.MusicPlayerSetSequence w1 true).2
    { s with
      toolbox := w2
      calls := s.calls ++ [ToolboxCall.MusicPlayerStop, ToolboxCall.MusicPlayerSetSequence true]
      is_playing := false }

/-- `I_MAC_UpdateMusic`.  The status returned by `MusicPlayerGetTime` and by
`MusicPlayerSetTime` is not looked at by the source. -/
def I_MAC_UpdateMusic {Ω : Type} (T : AudioToolbox Ω) (s : MacMusicState Ω) :
    MacMusicState Ω :=
  if !s.music_initialized || !s.is_playing then s
  else
    let r := T.MusicPlayerGetTime s.toolbox
    let time := r.1
    let s1 : MacMusicState Ω :=
      { s with toolbox := r.2, calls := s.calls ++ [ToolboxCall.MusicPlayerGetTime] }
    if time < s1.endtime then s1
    else if s1.is_looping then
      { s1 with
        toolbox := (T.MusicPlayerSetTime s1.toolbox 0).2
        calls := s1.calls ++ [ToolboxCall.MusicPlayerSetTime 0] }
    else s1

/-! ## macOS music backend: a small concrete player, used to evaluate -/

/-- A player with a playhead, a running flag and the lengths of the tracks
of the sequence loaded. -/
structure ToyPlayer where
  time : MusicTimeStamp
  running : Bool
  track_lengths : List MusicTimeStamp
deriving DecidableEq, Repr

/-- An AudioToolbox in which every call succeeds, except the lookup of a
track index outside the sequence. -/
def toy_toolbox : AudioToolbox ToyPlayer where
  MusicSequenceSetAUGraph w := (true, w)
  MusicPlayerSetSequence w _ := (true, w)
  MusicPlayerPreroll w := (true, w)
  MusicSequenceGetTrackCount w := ((true, w.track_lengths.length), w)
  MusicSequenceGetIndTrack w i := ((decide (i < w.track_lengths.length), i), w)
  MusicTrackGetProperty w track := ((true, w.track_lengths.getD track 0), w)
  MusicPlayerSetTime w t := (true, { w with time := t })
  MusicPlayerStart w := (true, { w with running := true })
  MusicPlayerGetTime w := (w.time, w)
  MusicPlayerStop w := (true, { w with running := false })

/-- Backend initialised, a sequence with tracks of lengths `30` and `45`
registered, nothing playing. -/
def mac_idle : MacMusicState ToyPlayer where
  music_initialized := true
  is_playing := false
  is_looping := false
  endtime := 0
  toolbox := { time := 0, running := false, track_lengths := [30, 45] }
  calls := []

/-- The state reached from `mac_idle` by `I_MAC_PlaySong` with the given
`looping` flag, once the playhead has moved on to `time`. -/
def mac_playing_at (looping : Bool) (time : MusicTimeStamp) : MacMusicState ToyPlayer :=
  let s := I_MAC_PlaySong toy_toolbox mac_idle 1 looping
  { s with toolbox := { s.toolbox with time := time } }

/-! ## Sound: lemmas on the search loop -/

theorem scan_all_enabled (MAX : Nat) (ci : Nat → channel_info_t) :
    ∀ (fuel channel : Nat), channel + fuel = MAX →
      (∀ i, channel ≤ i → i < MAX → (ci i).enabled = true) →
      I_StartSound.scan MAX ci fuel channel = MAX := by
  intro fuel
  induction fuel with
  | zero => intro channel h _; simpa [I_StartSound.scan] using h
  | succ n ih =>
    intro channel h hall
    have hlt : channel < MAX := by omega
    simp only [I_StartSound.scan, hlt, if_true, hall channel (le_refl _) hlt]
    simp only [beq_iff_eq, Bool.true_eq_false, if_false]
    exact ih (channel + 1) (by omega) (fun i hi hi2 => hall i (by omega) hi2)

/-- C1: with sound initialised and every one of the `MAX_CHANNELS` slots
enabled, `I_StartSound` returns `-1` and the state is the one before the
call: no slot changes and nothing is added to the log of backend calls. -/
theorem I_StartSound_full_pool {β : Type} (B : Build) (M : sound_module_t β)
    (s : SoundState β) (sfx : sfxinfo_ptr) (vol sep pitch : Int)
    (hinit : s.snd_init = true)
    (hfull : ∀ i, i < B.MAX_CHANNELS → (s.channelinfo i).enabled = true) :
    I_StartSound B M s sfx vol sep pitch = .ok (-1, s) := by
  have hscan : I_StartSound.scan B.MAX_CHANNELS s.channelinfo B.MAX_CHANNELS 0 = B.MAX_CHANNELS :=
    scan_all_enabled _ _ _ 0 (by omega) (fun i _ hi => hfull i hi)
  simp [I_StartSound, hinit, hscan]

theorem I_StartSound_full_pool_witness :
    sound_full.snd_init = true ∧
    (∀ i, i < (Build.mk 2 true).MAX_CHANNELS → (sound_full.channelinfo i).enabled = true) ∧
    I_StartSound (Build.mk 2 true) list_sound_module sound_full 3 127 128 64
      = .ok (-1, sound_full) :=
  ⟨rfl, fun _ _ => rfl,
    I_StartSound_full_pool (Build.mk 2 true) list_sound_module sound_full 3 127 128 64 rfl
      (fun _ _ => rfl)⟩

theorem scan_least (MAX : Nat) (ci : Nat → channel_info_t) (c : Nat) (hc : c < MAX)
    (hfree : (ci c).enabled = false) :
    ∀ (fuel channel : Nat), channel + fuel = MAX → channel ≤ c →
      (∀ i, channel ≤ i → i < c → (ci i).enabled = true) →
      I_StartSound.scan MAX ci fuel channel = c := by
  intro fuel
  induction fuel with
  | zero => intro channel h hle _; omega
  | succ n ih =>
    intro channel h hle hall
    have hlt : channel < MAX := by omega
    by_cases hcc : channel = c
    · subst hcc
      simp [I_StartSound.scan, hlt, hfree]
    · have hlt2 : channel < c := by omega
      simp only [I_StartSound.scan, hlt, if_true, hall channel (le_refl _) hlt2]
      simp only [beq_iff_eq, Bool.true_eq_false, if_false]
      exact ih (channel + 1) (by omega) (by omega) (fun i hi hi2 => hall i (by omega) hi2)

theorem out_of_range_cast (B : Build) (c : Nat) (hc : c < B.MAX_CHANNELS) :
    out_of_range B (c : Int) = false := by
  simp [out_of_range]
  omega

theorem out_of_range_false (B : Build) (channel : Int)
    (h0 : 0 ≤ channel) (h1 : channel < (B.MAX_CHANNELS : Int)) :
    out_of_range B channel = false := by
  simp [out_of_range]
  omega

theorem StopChannel_free {β : Type} (B : Build) (M : sound_module_t β) (s : SoundState β)
    (channel : Int) (h0 : 0 ≤ channel) (h1 : channel < (B.MAX_CHANNELS : Int))
    (hfree : (s.channelinfo channel.toNat).enabled = false) :
    StopChannel B M s channel = .ok s := by
  simp [StopChannel, out_of_range_false B channel h0 h1, hfree]

theorem StopChannel_busy {β : Type} (B : Build) (M : sound_module_t β) (s : SoundState β)
    (channel : Int) (h0 : 0 ≤ channel) (h1 : channel < (B.MAX_CHANNELS : Int))
    (hbusy : (s.channelinfo channel.toNat).enabled = true) :
    StopChannel B M s channel = .ok { s with
      backend := M.StopSound s.backend channel
      calls := s.calls ++ [SoundCall.StopSound channel]
      channelinfo := Function.update s.channelinfo channel.toNat
        { s.channelinfo channel.toNat with enabled := false } } := by
  simp [StopChannel, out_of_range_false B channel h0 h1, hbusy]

theorem I_StartSound_ok_eq {β : Type} (B : Build) (M : sound_module_t β)
    (s : SoundState β) (sfx : sfxinfo_ptr) (vol sep pitch : Int) (c : Nat)
    (hinit : s.snd_init = true)
    (hc : c < B.MAX_CHANNELS)
    (hfree : (s.channelinfo c).enabled = false)
    (hleast : ∀ i, i < c → (s.channelinfo i).enabled = true)
    (hcache : (M.CacheSound s.backend sfx).1 = true)
    (hstart : (M.StartSound
      (M.UpdateSoundParams (M.CacheSound s.backend sfx).2 c vol sep) c sfx pitch).1 = true) :
    I_StartSound B M s sfx vol sep pitch = .ok ((c : Int),
      { snd_init := s.snd_init
        channelinfo := Function.update s.channelinfo c
          { sfx := sfx, enabled := true, idnum := int_of_unsigned s.id }
        id := (s.id + 1) % 2 ^ UINT_BITS
        backend := (M.StartSound
          (M.UpdateSoundParams (M.CacheSound s.backend sfx).2 c vol sep) c sfx pitch).2
        calls := s.calls ++ [SoundCall.CacheSound sfx,
          SoundCall.UpdateSoundParams c vol sep, SoundCall.StartSound c sfx pitch] }) := by
  have hscan : I_StartSound.scan B.MAX_CHANNELS s.channelinfo B.MAX_CHANNELS 0 = c :=
    scan_least _ _ c hc hfree _ 0 (by omega) (by omega) (fun i _ hi => hleast i hi)
  have hne : c ≠ B.MAX_CHANNELS := by omega
  have hstop : StopChannel B M s (c : Int) = .ok s :=
    StopChannel_free B M s c (by omega) (by exact_mod_cast hc) (by simpa using hfree)
  simp only [I_StartSound, hinit, hscan, hstop]
  simp [hne, hcache, I_UpdateSoundParams, hinit, out_of_range_cast B c hc, hstart]

/-- C3: with sound initialised, `c` the least index whose slot is not
enabled, and the backend answering `true` to both `CacheSound` and
`StartSound`, `I_StartSound` returns `c`; afterwards slot `c` is enabled and
holds `sfx`, every other slot is as before, and the backend has received
`CacheSound(sfx)`, then `UpdateSoundParams(c, vol, sep)`, then
`StartSound(c, sfx, pitch)`, in that order and nothing else. -/
theorem I_StartSound_success {β : Type} (B : Build) (M : sound_module_t β)
    (s : SoundState β) (sfx : sfxinfo_ptr) (vol sep pitch : Int) (c : Nat)
    (hinit : s.snd_init = true)
    (hc : c < B.MAX_CHANNELS)
    (hfree : (s.channelinfo c).enabled = false)
    (hleast : ∀ i, i < c → (s.channelinfo i).enabled = true)
    (hcache : (M.CacheSound s.backend sfx).1 = true)
    (hstart : (M.StartSound
      (M.UpdateSoundParams (M.CacheSound s.backend sfx).2 c vol sep) c sfx pitch).1 = true) :
    ∃ s1 : SoundState β,
      I_StartSound B M s sfx vol sep pitch = .ok ((c : Int), s1) ∧
      (s1.channelinfo c).enabled = true ∧
      (s1.channelinfo c).sfx = sfx ∧
      (∀ i, i ≠ c → s1.channelinfo i = s.channelinfo i) ∧
      s1.calls = s.calls ++ [SoundCall.CacheSound sfx,
        SoundCall.UpdateSoundParams c vol sep, SoundCall.StartSound c sfx pitch] := by
  refine ⟨_, I_StartSound_ok_eq B M s sfx vol sep pitch c hinit hc hfree hleast hcache hstart,
    ?_, ?_, ?_, ?_⟩
  · simp
  · simp
  · intro i hi
    simp [Function.update_noteq hi]
  · simp

theorem I_StartSound_success_witness :
    ∃ s1 : SoundState (List Int),
      I_StartSound build4 list_sound_module sound_one_busy 7 127 128 64 = .ok (((1 : Nat) : Int), s1) ∧
      (s1.channelinfo 1).enabled = true ∧
      (s1.channelinfo 1).sfx = 7 ∧
      (∀ i, i ≠ 1 → s1.channelinfo i = sound_one_busy.channelinfo i) ∧
      s1.calls = sound_one_busy.calls ++ [SoundCall.CacheSound 7,
        SoundCall.UpdateSoundParams ((1 : Nat) : Int) 127 128,
        SoundCall.StartSound ((1 : Nat) : Int) 7 64] :=
  I_StartSound_success build4 list_sound_module sound_one_busy 7 127 128 64 1
    rfl (by decide) rfl (fun i hi => by interval_cases i; rfl) rfl rfl

theorem I_StartSound_fail_eq {β : Type} (B : Build) (M : sound_module_t β)
    (s : SoundState β) (sfx : sfxinfo_ptr) (vol sep pitch : Int) (c : Nat)
    (hinit : s.snd_init = true)
    (hc : c < B.MAX_CHANNELS)
    (hfree : (s.channelinfo c).enabled = false)
    (hleast : ∀ i, i < c → (s.channelinfo i).enabled = true)
    (hcache : (M.CacheSound s.backend sfx).1 = true)
    (hstart : (M.StartSound
      (M.UpdateSoundParams (M.CacheSound s.backend sfx).2 c vol sep) c sfx pitch).1 = false) :
    I_StartSound B M s sfx vol sep pitch = .ok (-1,
      { snd_init := s.snd_init
        channelinfo := Function.update s.channelinfo c
          { sfx := sfx, enabled := false, idnum := int_of_unsigned s.id }
        id := (s.id + 1) % 2 ^ UINT_BITS
        backend := M.StopSound (M.StartSound
          (M.UpdateSoundParams (M.CacheSound s.backend sfx).2 c vol sep) c sfx pitch).2 c
        calls := s.calls ++ [SoundCall.CacheSound sfx,
          SoundCall.UpdateSoundParams c vol sep, SoundCall.StartSound c sfx pitch,
          SoundCall.StopSound c] }) := by
  have hscan : I_StartSound.scan B.MAX_CHANNELS s.channelinfo B.MAX_CHANNELS 0 = c :=
    scan_least _ _ c hc hfree _ 0 (by omega) (by omega) (fun i _ hi => hleast i hi)
  have hne : c ≠ B.MAX_CHANNELS := by omega
  have hstop : StopChannel B M s (c : Int) = .ok s :=
    StopChannel_free B M s c (by omega) (by exact_mod_cast hc) (by simpa using hfree)
  simp only [I_StartSound, hinit, hscan, hstop]
  simp [hne, hcache, I_UpdateSoundParams, hinit, out_of_range_cast B c hc, hstart,
    StopChannel]

/-- C4 (as stated, refuted): on `sound_one_busy` the start of descriptor `7`
with a pitch the backend refuses picks the free slot `1`, caches, fails to
start and returns `-1`; slot `1` held `(NULL, free, id 0)` before the call
and holds `(7, free, id 1)` after it, so its contents are not restored. -/
theorem I_StartSound_rollback_counterexample :
    sound_one_busy.snd_init = true ∧
    (sound_one_busy.channelinfo 1).enabled = false ∧
    (list_sound_module.CacheSound sound_one_busy.backend 7).1 = true ∧
    (list_sound_module.StartSound sound_one_busy.backend 1 7 (-1)).1 = false ∧
    ∃ s1 : SoundState (List Int),
      I_StartSound build4 list_sound_module sound_one_busy 7 127 128 (-1) = .ok (-1, s1) ∧
      sound_one_busy.channelinfo 1 = { sfx := 0, enabled := false, idnum := 0 } ∧
      s1.channelinfo 1 = { sfx := 7, enabled := false, idnum := 1 } ∧
      s1.channelinfo 1 ≠ sound_one_busy.channelinfo 1 := by
  refine ⟨rfl, rfl, rfl, rfl, _,
    I_StartSound_fail_eq build4 list_sound_module sound_one_busy 7 127 128 (-1) 1
      rfl (by decide) rfl (fun i hi => by interval_cases i; rfl) rfl rfl, rfl, ?_, ?_⟩
  · simp [sound_one_busy, int_of_unsigned, UINT_BITS]
  · simp [sound_one_busy]

/-- C4 (amended): with sound initialised, `c` the least index whose slot is
not enabled, `CacheSound` succeeding and `StartSound` failing,
`I_StartSound` returns `-1`; slot `c` is free again and every slot has the
`enabled` flag it had before the call; every slot other than `c` is
unchanged; slot `c` keeps the `sfx` and the id written by the failed start,
the counter stays advanced, and the backend has received `CacheSound`,
`UpdateSoundParams`, `StartSound` and then `StopSound(c)`. -/
theorem I_StartSound_start_failure {β : Type} (B : Build) (M : sound_module_t β)
    (s : SoundState β) (sfx : sfxinfo_ptr) (vol sep pitch : Int) (c : Nat)
    (hinit : s.snd_init = true)
    (hc : c < B.MAX_CHANNELS)
    (hfree : (s.channelinfo c).enabled = false)
    (hleast : ∀ i, i < c → (s.channelinfo i).enabled = true)
    (hcache : (M.CacheSound s.backend sfx).1 = true)
    (hstart : (M.StartSound
      (M.UpdateSoundParams (M.CacheSound s.backend sfx).2 c vol sep) c sfx pitch).1 = false) :
    ∃ s1 : SoundState β,
      I_StartSound B M s sfx vol sep pitch = .ok (-1, s1) ∧
      s1.channelinfo c = { sfx := sfx, enabled := false, idnum := int_of_unsigned s.id } ∧
      (∀ i, i ≠ c → s1.channelinfo i = s.channelinfo i) ∧
      (∀ i, (s1.channelinfo i).enabled = (s.channelinfo i).enabled) ∧
      s1.id = (s.id + 1) % 2 ^ UINT_BITS ∧
      s1.calls = s.calls ++ [SoundCall.CacheSound sfx,
        SoundCall.UpdateSoundParams c vol sep, SoundCall.StartSound c sfx pitch,
        SoundCall.StopSound c] := by
  refine ⟨_, I_StartSound_fail_eq B M s sfx vol sep pitch c hinit hc hfree hleast hcache hstart,
    ?_, ?_, ?_, rfl, rfl⟩
  · simp
  · intro i hi
    simp [Function.update_noteq hi]
  · intro i
    by_cases hi : i = c
    · subst hi
      simp [hfree]
    · simp [Function.update_noteq hi]

theorem I_StartSound_start_failure_witness :
    ∃ s1 : SoundState (List Int),
      I_StartSound build4 list_sound_module sound_one_busy 7 127 128 (-1) = .ok (-1, s1) ∧
      s1.channelinfo 1 =
        { sfx := 7, enabled := false, idnum := int_of_unsigned sound_one_busy.id } ∧
      (∀ i, i ≠ 1 → s1.channelinfo i = sound_one_busy.channelinfo i) ∧
      (∀ i, (s1.channelinfo i).enabled = (sound_one_busy.channelinfo i).enabled) ∧
      s1.id = (sound_one_busy.id + 1) % 2 ^ UINT_BITS ∧
      s1.calls = sound_one_busy.calls ++ [SoundCall.CacheSound 7,
        SoundCall.UpdateSoundParams ((1 : Nat) : Int) 127 128,
        SoundCall.StartSound ((1 : Nat) : Int) 7 (-1),
        SoundCall.StopSound ((1 : Nat) : Int)] :=
  I_StartSound_start_failure build4 list_sound_module sound_one_busy 7 127 128 (-1) 1
    rfl (by decide) rfl (fun i hi => by interval_cases i; rfl) rfl rfl

/-- C5: for an in-range channel whose slot is not enabled, `StopChannel` and
`I_StopSound` return the state they were given (no backend call, pool
unchanged); and for any in-range channel, stopping twice in a row gives the
same result (pool, backend state and call log) as stopping once. -/
theorem stop_idempotent {β : Type} (B : Build) (M : sound_module_t β)
    (s : SoundState β) (channel : Int)
    (h0 : 0 ≤ channel) (h1 : channel < (B.MAX_CHANNELS : Int)) :
    ((s.channelinfo channel.toNat).enabled = false →
      StopChannel B M s channel = .ok s ∧ I_StopSound B M s channel = .ok s) ∧
    (StopChannel B M s channel).bind (fun s1 => StopChannel B M s1 channel)
      = StopChannel B M s channel ∧
    (I_StopSound B M s channel).bind (fun s1 => I_StopSound B M s1 channel)
      = I_StopSound B M s channel := by
  have hr := out_of_range_false B channel h0 h1
  have hidem : (StopChannel B M s channel).bind (fun s1 => StopChannel B M s1 channel)
      = StopChannel B M s channel := by
    cases hen : (s.channelinfo channel.toNat).enabled
    · rw [StopChannel_free B M s channel h0 h1 hen]
      simp [Except.bind, StopChannel_free B M s channel h0 h1 hen]
    · rw [StopChannel_busy B M s channel h0 h1 hen]
      simp only [Except.bind]
      rw [StopChannel_free B M _ channel h0 h1 (by simp)]
  refine ⟨fun hen => ⟨StopChannel_free B M s channel h0 h1 hen, ?_⟩, hidem, ?_⟩
  · simp [I_StopSound, hr, StopChannel_free B M s channel h0 h1 hen]
  · cases hinit : s.snd_init
    · simp [I_StopSound, hinit, Except.bind]
    · cases hen : (s.channelinfo channel.toNat).enabled
      · simp [I_StopSound, hinit, hr, Except.bind, StopChannel_free B M s channel h0 h1 hen]
      · simp only [I_StopSound, hinit, hr, StopChannel_busy B M s channel h0 h1 hen]
        simp only [Except.bind, Bool.not_true, Bool.and_false, Bool.false_eq_true, if_false]
        rw [StopChannel_free B M _ channel h0 h1 (by simp)]

theorem stop_idempotent_witness :
    ((sound_one_busy.channelinfo (0 : Int).toNat).enabled = false →
      StopChannel build4 list_sound_module sound_one_busy 0 = .ok sound_one_busy ∧
      I_StopSound build4 list_sound_module sound_one_busy 0 = .ok sound_one_busy) ∧
    (StopChannel build4 list_sound_module sound_one_busy 0).bind
        (fun s1 => StopChannel build4 list_sound_module s1 0)
      = StopChannel build4 list_sound_module sound_one_busy 0 ∧
    (I_StopSound build4 list_sound_module sound_one_busy 0).bind
        (fun s1 => I_StopSound build4 list_sound_module s1 0)
      = I_StopSound build4 list_sound_module sound_one_busy 0 :=
  stop_idempotent build4 list_sound_module sound_one_busy 0 (by decide) (by decide)

theorem reset_spec (MAX : Nat) :
    ∀ (fuel i : Nat) (ci : Nat → channel_info_t), i + fuel = MAX → ∀ j,
      I_SetChannels.reset MAX fuel i ci j =
        if i ≤ j ∧ j < MAX then { sfx := 0, enabled := false, idnum := 0 } else ci j := by
  intro fuel
  induction fuel with
  | zero =>
    intro i ci h j
    have : ¬ (i ≤ j ∧ j < MAX) := by omega
    simp [I_SetChannels.reset, this]
  | succ n ih =>
    intro i ci h j
    have hlt : i < MAX := by omega
    simp only [I_SetChannels.reset, hlt, if_true]
    rw [ih (i + 1) _ (by omega) j]
    by_cases hj : j = i
    · subst hj
      have h1 : ¬ (j + 1 ≤ j ∧ j < MAX) := by omega
      have h2 : j ≤ j ∧ j < MAX := ⟨le_refl _, hlt⟩
      simp [h1, h2]
    · by_cases hr : i + 1 ≤ j ∧ j < MAX
      · have h2 : i ≤ j ∧ j < MAX := ⟨by omega, hr.2⟩
        simp [hr, h2]
      · have h2 : ¬ (i ≤ j ∧ j < MAX) := by omega
        simp [hr, h2, Function.update_noteq hj]

/-- C10 (as stated, refuted): from the start state, a successful
`I_StartSound` puts descriptor `7` on channel `0`; after `I_SetChannels` the
query `I_SoundIsPlaying(0)` still answers `true`, because it asks the
backend, which was never told to stop. -/
theorem I_SetChannels_playing_counterexample :
    ∃ s1 s2 : SoundState (List Int),
      I_StartSound build4 list_sound_module sound_start 7 127 128 64 = .ok (0, s1) ∧
      ((I_SetChannels build4 s1).channelinfo 0).enabled = false ∧
      I_SoundIsPlaying build4 list_sound_module (I_SetChannels build4 s1) 0
        = .ok (true, s2) := by
  refine ⟨_, _,
    I_StartSound_ok_eq build4 list_sound_module sound_start 7 127 128 64 0
      rfl (by decide) rfl (fun i hi => by omega) rfl rfl, rfl, rfl⟩

/-- C10 (amended): after `I_SetChannels` every slot below `MAX_CHANNELS` is
zeroed (`sfx` `NULL`, not enabled, `idnum` `0`) and `I_SoundID` of any
in-range channel returns `0`; `I_SoundIsPlaying` of an in-range channel
returns `false` when sound is not initialised and otherwise returns the
answer of the backend's `SoundIsPlaying` for that channel. -/
theorem I_SetChannels_then_query {β : Type} (B : Build) (M : sound_module_t β)
    (s : SoundState β) (channel : Int)
    (h0 : 0 ≤ channel) (h1 : channel < (B.MAX_CHANNELS : Int)) :
    (∀ i, i < B.MAX_CHANNELS →
      (I_SetChannels B s).channelinfo i = { sfx := 0, enabled := false, idnum := 0 }) ∧
    I_SoundID B (I_SetChannels B s) channel = .ok (0, I_SetChannels B s) ∧
    (s.snd_init = false →
      I_SoundIsPlaying B M (I_SetChannels B s) channel = .ok (false, I_SetChannels B s)) ∧
    (s.snd_init = true →
      I_SoundIsPlaying B M (I_SetChannels B s) channel
        = .ok ((M.SoundIsPlaying s.backend channel).1,
            { I_SetChannels B s with
              backend := (M.SoundIsPlaying s.backend channel).2
              calls := s.calls ++ [SoundCall.SoundIsPlaying channel] })) := by
  have hr := out_of_range_false B channel h0 h1
  have hslots : ∀ i, i < B.MAX_CHANNELS →
      (I_SetChannels B s).channelinfo i = { sfx := 0, enabled := false, idnum := 0 } := by
    intro i hi
    simp only [I_SetChannels]
    rw [reset_spec B.MAX_CHANNELS B.MAX_CHANNELS 0 s.channelinfo (by omega) i]
    simp [hi]
  refine ⟨hslots, ?_, ?_, ?_⟩
  · have hlt : channel.toNat < B.MAX_CHANNELS := by omega
    cases hinit : s.snd_init
    · simp [I_SoundID, I_SetChannels, hinit]
    · have hid := hslots channel.toNat hlt
      have hinit2 : (I_SetChannels B s).snd_init = true := hinit
      simp only [I_SoundID, hinit2, hr, hid]
      simp
  · intro hinit
    simp [I_SoundIsPlaying, I_SetChannels, hinit]
  · intro hinit
    simp only [I_SoundIsPlaying, I_SetChannels, hinit, hr]
    simp only [Bool.not_true, Bool.and_false, Bool.false_eq_true, if_false]

theorem I_SetChannels_then_query_witness :
    (∀ i, i < build4.MAX_CHANNELS →
      (I_SetChannels build4 sound_one_busy).channelinfo i
        = { sfx := 0, enabled := false, idnum := 0 }) ∧
    I_SoundID build4 (I_SetChannels build4 sound_one_busy) 0
      = .ok (0, I_SetChannels build4 sound_one_busy) ∧
    (sound_one_busy.snd_init = false →
      I_SoundIsPlaying build4 list_sound_module (I_SetChannels build4 sound_one_busy) 0
        = .ok (false, I_SetChannels build4 sound_one_busy)) ∧
    (sound_one_busy.snd_init = true →
      I_SoundIsPlaying build4 list_sound_module (I_SetChannels build4 sound_one_busy) 0
        = .ok ((list_sound_module.SoundIsPlaying sound_one_busy.backend 0).1,
            { I_SetChannels build4 sound_one_busy with
              backend := (list_sound_module.SoundIsPlaying sound_one_busy.backend 0).2
              calls := sound_one_busy.calls ++ [SoundCall.SoundIsPlaying 0] })) :=
  I_SetChannels_then_query build4 list_sound_module sound_one_busy 0 (by decide) (by decide)

theorem scan_spec (MAX : Nat) (ci : Nat → channel_info_t) :
    ∀ (fuel channel : Nat), channel + fuel = MAX →
      channel ≤ I_StartSound.scan MAX ci fuel channel ∧
      I_StartSound.scan MAX ci fuel channel ≤ MAX ∧
      (∀ i, channel ≤ i → i < I_StartSound.scan MAX ci fuel channel → (ci i).enabled = true) ∧
      (I_StartSound.scan MAX ci fuel channel < MAX →
        (ci (I_StartSound.scan MAX ci fuel channel)).enabled = false) := by
  intro fuel
  induction fuel with
  | zero =>
    intro channel h
    simp only [I_StartSound.scan]
    refine ⟨le_refl _, by omega, fun i h1 h2 => by omega, fun h2 => by omega⟩
  | succ n ih =>
    intro channel h
    have hlt : channel < MAX := by omega
    cases hen : (ci channel).enabled
    · have hstep : I_StartSound.scan MAX ci (n + 1) channel = channel := by
        simp [I_StartSound.scan, hlt, hen]
      rw [hstep]
      exact ⟨le_refl _, by omega, fun i h1 h2 => by omega, fun _ => hen⟩
    · have hstep : I_StartSound.scan MAX ci (n + 1) channel
          = I_StartSound.scan MAX ci n (channel + 1) := by
        simp [I_StartSound.scan, hlt, hen]
      rw [hstep]
      obtain ⟨h1, h2, h3, h4⟩ := ih (channel + 1) (by omega)
      refine ⟨by omega, h2, ?_, h4⟩
      intro i hi hi2
      by_cases hic : i = channel
      · subst hic; exact hen
      · exact h3 i (by omega) hi2

theorem I_StartSound_cache_fail_eq {β : Type} (B : Build) (M : sound_module_t β)
    (s : SoundState β) (sfx : sfxinfo_ptr) (vol sep pitch : Int) (c : Nat)
    (hinit : s.snd_init = true)
    (hc : c < B.MAX_CHANNELS)
    (hfree : (s.channelinfo c).enabled = false)
    (hleast : ∀ i, i < c → (s.channelinfo i).enabled = true)
    (hcache : (M.CacheSound s.backend sfx).1 = false) :
    I_StartSound B M s sfx vol sep pitch = .ok (-1,
      { s with
        backend := (M.CacheSound s.backend sfx).2
        calls := s.calls ++ [SoundCall.CacheSound sfx] }) := by
  have hscan : I_StartSound.scan B.MAX_CHANNELS s.channelinfo B.MAX_CHANNELS 0 = c :=
    scan_least _ _ c hc hfree _ 0 (by omega) (by omega) (fun i _ hi => hleast i hi)
  have hne : c ≠ B.MAX_CHANNELS := by omega
  have hstop : StopChannel B M s (c : Int) = .ok s :=
    StopChannel_free B M s c (by omega) (by exact_mod_cast hc) (by simpa using hfree)
  simp only [I_StartSound, hinit, hscan, hstop]
  simp [hne, hcache]

/-- `I_StartSound` always returns; it either reports `-1`, having consumed at
most one id, or returns a channel whose slot now carries the id the counter
had before the call. -/
theorem I_StartSound_cases {β : Type} (B : Build) (M : sound_module_t β)
    (s : SoundState β) (sfx : sfxinfo_ptr) (vol sep pitch : Int) :
    ∃ (r : Int) (s1 : SoundState β),
      I_StartSound B M s sfx vol sep pitch = .ok (r, s1) ∧ s1.snd_init = s.snd_init ∧
      ((r = -1 ∧ (s1.id = s.id ∨ s1.id = (s.id + 1) % 2 ^ UINT_BITS)) ∨
       (∃ c : Nat, c < B.MAX_CHANNELS ∧ r = (c : Int) ∧ s.snd_init = true ∧
          s1.id = (s.id + 1) % 2 ^ UINT_BITS ∧
          (s1.channelinfo c).idnum = int_of_unsigned s.id)) := by
  cases hinit : s.snd_init
  · exact ⟨-1, s, by simp [I_StartSound, hinit], hinit, Or.inl ⟨rfl, Or.inl rfl⟩⟩
  · obtain ⟨_, h2, h3, h4⟩ := scan_spec B.MAX_CHANNELS s.channelinfo B.MAX_CHANNELS 0 (by omega)
    by_cases hfull : I_StartSound.scan B.MAX_CHANNELS s.channelinfo B.MAX_CHANNELS 0
        = B.MAX_CHANNELS
    · exact ⟨-1, s, by simp [I_StartSound, hinit, hfull], hinit, Or.inl ⟨rfl, Or.inl rfl⟩⟩
    · have hc : I_StartSound.scan B.MAX_CHANNELS s.channelinfo B.MAX_CHANNELS 0
          < B.MAX_CHANNELS := by omega
      have hfree := h4 hc
      have hleast := fun i (hi : i < I_StartSound.scan B.MAX_CHANNELS s.channelinfo
        B.MAX_CHANNELS 0) => h3 i (by omega) hi
      cases hcache : (M.CacheSound s.backend sfx).1
      · exact ⟨_, _, I_StartSound_cache_fail_eq B M s sfx vol sep pitch _ hinit hc hfree
          hleast hcache, hinit, Or.inl ⟨rfl, Or.inl rfl⟩⟩
      · cases hstart : (M.StartSound (M.UpdateSoundParams (M.CacheSound s.backend sfx).2
            (I_StartSound.scan B.MAX_CHANNELS s.channelinfo B.MAX_CHANNELS 0 : Nat) vol sep)
            (I_StartSound.scan B.MAX_CHANNELS s.channelinfo B.MAX_CHANNELS 0 : Nat)
            sfx pitch).1
        · exact ⟨_, _, I_StartSound_fail_eq B M s sfx vol sep pitch _ hinit hc hfree
            hleast hcache hstart, hinit, Or.inl ⟨rfl, Or.inr rfl⟩⟩
        · refine ⟨_, _, I_StartSound_ok_eq B M s sfx vol sep pitch _ hinit hc hfree
            hleast hcache hstart, hinit, Or.inr ⟨_, hc, rfl, rfl, rfl, ?_⟩⟩
          simp

theorem int_of_unsigned_small (u : Nat) (h : u < 2 ^ (UINT_BITS - 1)) :
    int_of_unsigned u = (u : Int) := by
  have h32 : u < 2 ^ UINT_BITS := by
    simp only [UINT_BITS] at h ⊢
    omega
  simp [int_of_unsigned, Nat.mod_eq_of_lt h32, h]

theorem I_SoundID_in_range {β : Type} (B : Build) (s : SoundState β) (c : Nat)
    (hinit : s.snd_init = true) (hc : c < B.MAX_CHANNELS) :
    I_SoundID B s (c : Int) = .ok ((s.channelinfo c).idnum, s) := by
  simp [I_SoundID, hinit, out_of_range_cast B c hc]

theorem StopChannel_id {β : Type} (B : Build) (M : sound_module_t β) (s s1 : SoundState β)
    (channel : Int) (h : StopChannel B M s channel = .ok s1) :
    s1.id = s.id ∧ s1.snd_init = s.snd_init := by
  unfold StopChannel at h
  split at h
  · cases h; exact ⟨rfl, rfl⟩
  · split at h
    · cases h
    · split at h
      · cases h; exact ⟨rfl, rfl⟩
      · cases h; exact ⟨rfl, rfl⟩

theorem I_StopSound_id {β : Type} (B : Build) (M : sound_module_t β) (s s1 : SoundState β)
    (channel : Int) (h : I_StopSound B M s channel = .ok s1) :
    s1.id = s.id ∧ s1.snd_init = s.snd_init := by
  unfold I_StopSound at h
  split at h
  · cases h; exact ⟨rfl, rfl⟩
  · split at h
    · cases h
    · exact StopChannel_id B M s s1 channel h

theorem issued_ids_bounds {β : Type} (B : Build) (M : sound_module_t β) :
    ∀ (ops : List PoolCall) (s : SoundState β),
      s.id + start_calls ops ≤ 2 ^ (UINT_BITS - 1) →
      (∀ v ∈ issued_ids B M s ops, (s.id : Int) ≤ v) ∧
      List.Pairwise (fun a b => a < b) (issued_ids B M s ops) := by
  intro ops
  induction ops with
  | nil => intro s _; simp [issued_ids]
  | cons op rest ih =>
    intro s hlen
    cases op with
    | StartSound sfx vol sep pitch =>
      have hlen2 : s.id + start_calls rest + 1 ≤ 2 ^ (UINT_BITS - 1) := by
        simpa [start_calls, Nat.add_assoc] using hlen
      have hmod : (s.id + 1) % 2 ^ UINT_BITS = s.id + 1 := by
        apply Nat.mod_eq_of_lt
        simp only [UINT_BITS] at hlen2 ⊢
        omega
      obtain ⟨r, s1, heq, hsnd, hcase⟩ := I_StartSound_cases B M s sfx vol sep pitch
      rcases hcase with ⟨hr, hid⟩ | ⟨c, hc, hr, hinit, hid, hnum⟩
      · have hs1 : s.id ≤ s1.id ∧ s1.id + start_calls rest ≤ 2 ^ (UINT_BITS - 1) := by
          rcases hid with hid | hid
          · rw [hid]; omega
          · rw [hid, hmod]; omega
        obtain ⟨hb, hp⟩ := ih s1 hs1.2
        simp only [issued_ids, heq, hr, if_true]
        refine ⟨fun v hv => ?_, hp⟩
        have := hb v hv
        have h3 : (s.id : Int) ≤ (s1.id : Int) := by exact_mod_cast hs1.1
        omega
      · have hs1 : s1.id = s.id + 1 := by rw [hid, hmod]
        obtain ⟨hb, hp⟩ := ih s1 (by rw [hs1]; omega)
        have hne : ¬ ((c : Int) = -1) := by omega
        have hread : I_SoundID B s1 (c : Int) = .ok ((s.id : Int), s1) := by
          rw [I_SoundID_in_range B s1 c (by rw [hsnd, hinit]) hc, hnum,
            int_of_unsigned_small s.id (by omega)]
        simp only [issued_ids, heq, hr, hne, if_false, hread]
        refine ⟨fun v hv => ?_, ?_⟩
        · rcases List.mem_cons.mp hv with hv | hv
          · omega
          · have := hb v hv
            rw [hs1] at this
            push_cast at this
            omega
        · refine List.Pairwise.cons (fun v hv => ?_) hp
          have := hb v hv
          rw [hs1] at this
          push_cast at this
          omega
    | StopSound channel =>
      have hlen2 : s.id + start_calls rest ≤ 2 ^ (UINT_BITS - 1) := by
        simpa [start_calls] using hlen
      cases hstop : I_StopSound B M s channel with
      | error e => simp [issued_ids, hstop]
      | ok s1 =>
        have hid := (I_StopSound_id B M s s1 channel hstop).1
        obtain ⟨hb, hp⟩ := ih s1 (by rw [hid]; exact hlen2)
        simp only [issued_ids, hstop]
        rw [hid] at hb
        exact ⟨hb, hp⟩
    | SetChannels =>
      have hlen2 : s.id + start_calls rest ≤ 2 ^ (UINT_BITS - 1) := by
        simpa [start_calls] using hlen
      obtain ⟨hb, hp⟩ := ih (I_SetChannels B s) (by simp only [I_SetChannels]; exact hlen2)
      simp only [issued_ids]
      exact ⟨hb, hp⟩

/-- C2 (amended): from any state, for every sequence of `I_StartSound`,
`I_StopSound` and `I_SetChannels` calls such that the value of the 32-bit
counter at the beginning plus the number of `I_StartSound` calls in the
sequence is at most `2^31`, the ids read back by `I_SoundID` after the
successful starts are strictly increasing in call order, so each is greater
than every id issued earlier and none is issued twice. -/
theorem issued_ids_increasing {β : Type} (B : Build) (M : sound_module_t β)
    (s : SoundState β) (ops : List PoolCall)
    (h : s.id + start_calls ops ≤ 2 ^ (UINT_BITS - 1)) :
    List.Pairwise (fun a b => a < b) (issued_ids B M s ops) :=
  (issued_ids_bounds B M ops s h).2

theorem issued_ids_increasing_witness :
    sound_start.id + start_calls (start_stop_rounds 2 ++ [PoolCall.SetChannels,
      PoolCall.StartSound 9 127 128 64]) ≤ 2 ^ (UINT_BITS - 1) ∧
    List.Pairwise (fun a b => a < b)
      (issued_ids build4 list_sound_module sound_start
        (start_stop_rounds 2 ++ [PoolCall.SetChannels, PoolCall.StartSound 9 127 128 64])) :=
  ⟨by decide, issued_ids_increasing build4 list_sound_module sound_start
    (start_stop_rounds 2 ++ [PoolCall.SetChannels, PoolCall.StartSound 9 127 128 64])
    (by decide)⟩

theorem I_StopSound_busy {β : Type} (B : Build) (M : sound_module_t β) (s : SoundState β)
    (channel : Int) (hinit : s.snd_init = true)
    (h0 : 0 ≤ channel) (h1 : channel < (B.MAX_CHANNELS : Int))
    (hbusy : (s.channelinfo channel.toNat).enabled = true) :
    I_StopSound B M s channel = .ok { s with
      backend := M.StopSound s.backend channel
      calls := s.calls ++ [SoundCall.StopSound channel]
      channelinfo := Function.update s.channelinfo channel.toNat
        { s.channelinfo channel.toNat with enabled := false } } := by
  simp [I_StopSound, hinit, out_of_range_false B channel h0 h1,
    StopChannel_busy B M s channel h0 h1 hbusy]

theorem start_stop_round (s : SoundState (List Int)) (rest : List PoolCall)
    (hinit : s.snd_init = true) (hfree : (s.channelinfo 0).enabled = false) :
    ∃ s1 : SoundState (List Int),
      s1.snd_init = true ∧ (s1.channelinfo 0).enabled = false ∧
      s1.id = (s.id + 1) % 2 ^ UINT_BITS ∧
      issued_ids build4 list_sound_module s
        (PoolCall.StartSound 7 127 128 64 :: PoolCall.StopSound 0 :: rest)
        = int_of_unsigned s.id :: issued_ids build4 list_sound_module s1 rest := by
  obtain ⟨sA, hA, hAinit, hAbusy, hAnum, hAid⟩ :
      ∃ sA : SoundState (List Int),
        I_StartSound build4 list_sound_module s 7 127 128 64 = .ok (((0 : Nat) : Int), sA) ∧
        sA.snd_init = true ∧ (sA.channelinfo 0).enabled = true ∧
        (sA.channelinfo 0).idnum = int_of_unsigned s.id ∧
        sA.id = (s.id + 1) % 2 ^ UINT_BITS :=
    ⟨_, I_StartSound_ok_eq build4 list_sound_module s 7 127 128 64 0 hinit
      (by decide) hfree (fun i hi => by omega) rfl rfl, hinit, by simp, by simp, rfl⟩
  obtain ⟨sB, hB, hBinit, hBfree, hBid⟩ :
      ∃ sB : SoundState (List Int),
        I_StopSound build4 list_sound_module sA 0 = .ok sB ∧
        sB.snd_init = true ∧ (sB.channelinfo 0).enabled = false ∧ sB.id = sA.id :=
    ⟨_, I_StopSound_busy build4 list_sound_module sA 0 hAinit (by decide) (by decide) hAbusy,
      hAinit, by simp, rfl⟩
  have hne : ¬ (((0 : Nat) : Int) = -1) := by omega
  have hread := I_SoundID_in_range build4 sA 0 hAinit (by decide)
  refine ⟨sB, hBinit, hBfree, by rw [hBid, hAid], ?_⟩
  simp only [issued_ids, hA, hne, if_false, hread, hAnum]
  rw [hB]

theorem single_start_run (s : SoundState (List Int))
    (hinit : s.snd_init = true) (hfree : (s.channelinfo 0).enabled = false) :
    issued_ids build4 list_sound_module s [PoolCall.StartSound 7 127 128 64]
      = [int_of_unsigned s.id] := by
  obtain ⟨sA, hA, hAinit, hAnum⟩ :
      ∃ sA : SoundState (List Int),
        I_StartSound build4 list_sound_module s 7 127 128 64 = .ok (((0 : Nat) : Int), sA) ∧
        sA.snd_init = true ∧ (sA.channelinfo 0).idnum = int_of_unsigned s.id :=
    ⟨_, I_StartSound_ok_eq build4 list_sound_module s 7 127 128 64 0 hinit
      (by decide) hfree (fun i hi => by omega) rfl rfl, hinit, by simp⟩
  have hne : ¬ (((0 : Nat) : Int) = -1) := by omega
  have hread := I_SoundID_in_range build4 sA 0 hAinit (by decide)
  simp only [issued_ids, hA, hne, if_false, hread, hAnum]

theorem start_stop_rounds_run :
    ∀ (n : Nat) (s : SoundState (List Int)) (rest : List PoolCall),
      s.snd_init = true → (s.channelinfo 0).enabled = false → s.id < 2 ^ UINT_BITS →
      ∃ (s1 : SoundState (List Int)) (L : List Int),
        s1.snd_init = true ∧ (s1.channelinfo 0).enabled = false ∧
        s1.id = (s.id + n) % 2 ^ UINT_BITS ∧
        (0 < n → int_of_unsigned s.id ∈ L) ∧
        issued_ids build4 list_sound_module s (start_stop_rounds n ++ rest)
          = L ++ issued_ids build4 list_sound_module s1 rest := by
  intro n
  induction n with
  | zero =>
    intro s rest hinit hfree hid
    exact ⟨s, [], hinit, hfree, by simp [Nat.mod_eq_of_lt hid], by simp,
      by simp [start_stop_rounds]⟩
  | succ k ih =>
    intro s rest hinit hfree hid
    obtain ⟨s1, h1, h2, h3, h4⟩ :=
      start_stop_round s (start_stop_rounds k ++ rest) hinit hfree
    obtain ⟨s2, L, g1, g2, g3, _, g5⟩ := ih s1 rest h1 h2
      (by rw [h3]; exact Nat.mod_lt _ (by simp [UINT_BITS]))
    refine ⟨s2, int_of_unsigned s.id :: L, g1, g2, ?_, fun _ => List.mem_cons_self _ _, ?_⟩
    · rw [g3, h3, Nat.mod_add_mod]
      congr 1
      omega
    · have : start_stop_rounds (k + 1) ++ rest
          = PoolCall.StartSound 7 127 128 64 :: PoolCall.StopSound 0
            :: (start_stop_rounds k ++ rest) := rfl
      rw [this, h4, g5]
      rfl

/-- C2 (as stated, refuted): from the start state (counter `0`), after
`2^31` rounds of "start, stop channel 0", each of which succeeds, one more
successful start is issued the id `-2^31` (the 32-bit counter value `2^31`
stored into an `int`), which is not greater than the id `0` issued first:
the ids issued are not strictly increasing. -/
theorem issued_ids_wrap_counterexample :
    sound_start.id = 0 ∧
    (∃ L : List Int,
      issued_ids build4 list_sound_module sound_start
        (start_stop_rounds (2 ^ 31) ++ [PoolCall.StartSound 7 127 128 64])
        = L ++ [-2147483648] ∧ (0 : Int) ∈ L) ∧
    ¬ List.Pairwise (fun a b => a < b)
      (issued_ids build4 list_sound_module sound_start
        (start_stop_rounds (2 ^ 31) ++ [PoolCall.StartSound 7 127 128 64])) := by
  obtain ⟨s1, L, g1, g2, g3, g4, g5⟩ :=
    start_stop_rounds_run (2 ^ 31) sound_start [PoolCall.StartSound 7 127 128 64]
      rfl rfl (by decide)
  have hlast := single_start_run s1 g1 g2
  have hid : s1.id = 2 ^ 31 := by
    rw [g3]
    decide
  have hneg : int_of_unsigned (2 ^ 31) = -2147483648 := by decide
  have hzero : int_of_unsigned sound_start.id = 0 := by decide
  rw [hid, hneg] at hlast
  rw [hlast] at g5
  have hmem : (0 : Int) ∈ L := by
    have := g4 (by positivity)
    rwa [hzero] at this
  refine ⟨rfl, ⟨L, g5, hmem⟩, fun hp => ?_⟩
  rw [g5] at hp
  have hlt := (List.pairwise_append.mp hp).2.2 _ hmem _ (List.mem_singleton.mpr rfl)
  omega

/-! ## Music: song registration -/

theorem IsMid_of_take_ne (data : List Nat) (size : Int) (h : data.take 4 ≠ MThd) :
    IsMid data size = false := by
  simp [IsMid, h]

theorem IsMus_of_take_ne (data : List Nat) (size : Int) (h : data.take 4 ≠ MUS_1a) :
    IsMus data size = false := by
  simp [IsMus, h]

theorem I_RegisterSong_midi_eq {Ω : Type} (mods : music_module_ref → music_module_t Ω)
    (s : MusicState Ω) (data : List Nat) (size : Int) (m : music_module_ref)
    (hm : s.midi_player_module = some m)
    (hsig : (IsMus data size || IsMid data size) = true) :
    I_RegisterSong mods s data size = .ok
      (((mods m).I_RegisterSong ((mods m).I_SetMusicVolume s.world s.snd_MusicVolume)
          data size).1,
        { s with
          active_module := some m
          world := ((mods m).I_RegisterSong
            ((mods m).I_SetMusicVolume s.world s.snd_MusicVolume) data size).2
          calls := s.calls ++ [MusicCall.I_SetMusicVolume m s.snd_MusicVolume,
            MusicCall.I_RegisterSong m data size
              ((mods m).I_RegisterSong ((mods m).I_SetMusicVolume s.world s.snd_MusicVolume)
                data size).1] }) := by
  simp only [I_RegisterSong, hsig, if_true, hm]

/-- C7 (as stated, refuted): the buffer consisting of exactly the four bytes
`"MThd"` begins with `"MThd"`, yet with FluidSynth installed as the
MIDI-capable backend `I_RegisterSong` makes OpenAL the active backend and
registers there, because `IsMid` requires more than four bytes; and with no
MIDI-capable backend installed (`midi_player_module` still `NULL`) a longer
MIDI buffer makes the call go through the `NULL` pointer. -/
theorem I_RegisterSong_signature_counterexample :
    MThd.take 4 = MThd ∧
    music_ready.midi_player_module = some music_module_ref.music_fl_module ∧
    (∃ (h : Nat) (s1 : MusicState (List music_module_ref)),
      I_RegisterSong list_music_modules music_ready MThd 4 = .ok (h, s1) ∧
      s1.active_module = some music_module_ref.music_oal_module ∧
      s1.calls = [MusicCall.I_SetMusicVolume music_module_ref.music_oal_module 8,
        MusicCall.I_RegisterSong music_module_ref.music_oal_module MThd 4 h]) ∧
    I_RegisterSong list_music_modules music_boot (MThd ++ [0, 6]) 6
      = .error Fault.undefined_access :=
  ⟨rfl, rfl, ⟨_, _, rfl, rfl, rfl⟩, rfl⟩

/-- C7 (amended): for a buffer of more than four bytes (`size > 4`) whose
first four bytes are `"MThd"` or `"MUS\x1a"`, whatever the active backend was,
and with a MIDI-capable backend `m` installed, `I_RegisterSong` makes `m`
the active backend, calls its `I_SetMusicVolume` with `snd_MusicVolume`,
then its `I_RegisterSong`, and returns exactly the handle that call
returned. -/
theorem I_RegisterSong_midi {Ω : Type} (mods : music_module_ref → music_module_t Ω)
    (s : MusicState Ω) (data : List Nat) (size : Int) (m : music_module_ref)
    (hm : s.midi_player_module = some m)
    (hsize : size > 4)
    (hsig : data.take 4 = MThd ∨ data.take 4 = MUS_1a) :
    ∃ (h : Nat) (s1 : MusicState Ω),
      I_RegisterSong mods s data size = .ok (h, s1) ∧
      s1.active_module = some m ∧
      s1.midi_player_module = some m ∧
      h = ((mods m).I_RegisterSong ((mods m).I_SetMusicVolume s.world s.snd_MusicVolume)
        data size).1 ∧
      s1.calls = s.calls ++ [MusicCall.I_SetMusicVolume m s.snd_MusicVolume,
        MusicCall.I_RegisterSong m data size h] := by
  have hs : (IsMus data size || IsMid data size) = true := by
    rcases hsig with h | h
    · simp [IsMid, hsize, h]
    · simp [IsMus, hsize, h]
  exact ⟨_, _, I_RegisterSong_midi_eq mods s data size m hm hs, rfl, hm, rfl, rfl⟩

theorem I_RegisterSong_midi_witness :
    ∃ (h : Nat) (s1 : MusicState (List music_module_ref)),
      I_RegisterSong list_music_modules music_ready (MUS_1a ++ [9, 9]) 6 = .ok (h, s1) ∧
      s1.active_module = some music_module_ref.music_fl_module ∧
      s1.midi_player_module = some music_module_ref.music_fl_module ∧
      h = ((list_music_modules music_module_ref.music_fl_module).I_RegisterSong
        ((list_music_modules music_module_ref.music_fl_module).I_SetMusicVolume
          music_ready.world music_ready.snd_MusicVolume) (MUS_1a ++ [9, 9]) 6).1 ∧
      s1.calls = music_ready.calls ++
        [MusicCall.I_SetMusicVolume music_module_ref.music_fl_module music_ready.snd_MusicVolume,
         MusicCall.I_RegisterSong music_module_ref.music_fl_module (MUS_1a ++ [9, 9]) 6 h] :=
  I_RegisterSong_midi list_music_modules music_ready (MUS_1a ++ [9, 9]) 6
    music_module_ref.music_fl_module rfl (by decide) (Or.inr rfl)

theorem I_RegisterSong_stream_opl_eq {Ω : Type} (mods : music_module_ref → music_module_t Ω)
    (s : MusicState Ω) (data : List Nat) (size : Int)
    (hs : (IsMus data size || IsMid data size) = false)
    (hopl : s.midi_player_module = some music_module_ref.music_opl_module) :
    I_RegisterSong mods s data size = .ok
      (((mods music_module_ref.music_oal_module).I_RegisterSong
          ((mods music_module_ref.music_oal_module).I_SetMusicVolume
            ((mods music_module_ref.music_opl_module).I_ShutdownMusic s.world)
            s.snd_MusicVolume) data size).1,
        { s with
          active_module := some music_module_ref.music_oal_module
          world := ((mods music_module_ref.music_oal_module).I_RegisterSong
            ((mods music_module_ref.music_oal_module).I_SetMusicVolume
              ((mods music_module_ref.music_opl_module).I_ShutdownMusic s.world)
              s.snd_MusicVolume) data size).2
          calls := (s.calls ++ [MusicCall.I_ShutdownMusic music_module_ref.music_opl_module])
            ++ [MusicCall.I_SetMusicVolume music_module_ref.music_oal_module s.snd_MusicVolume,
              MusicCall.I_RegisterSong music_module_ref.music_oal_module data size
                ((mods music_module_ref.music_oal_module).I_RegisterSong
                  ((mods music_module_ref.music_oal_module).I_SetMusicVolume
                    ((mods music_module_ref.music_opl_module).I_ShutdownMusic s.world)
                    s.snd_MusicVolume) data size).1] }) := by
  simp only [I_RegisterSong, hs, hopl, if_true, Bool.false_eq_true, if_false]

theorem I_RegisterSong_stream_other_eq {Ω : Type}
    (mods : music_module_ref → music_module_t Ω)
    (s : MusicState Ω) (data : List Nat) (size : Int)
    (hs : (IsMus data size || IsMid data size) = false)
    (hopl : s.midi_player_module ≠ some music_module_ref.music_opl_module) :
    I_RegisterSong mods s data size = .ok
      (((mods music_module_ref.music_oal_module).I_RegisterSong
          ((mods music_module_ref.music_oal_module).I_SetMusicVolume s.world
            s.snd_MusicVolume) data size).1,
        { s with
          active_module := some music_module_ref.music_oal_module
          world := ((mods music_module_ref.music_oal_module).I_RegisterSong
            ((mods music_module_ref.music_oal_module).I_SetMusicVolume s.world
              s.snd_MusicVolume) data size).2
          calls := s.calls
            ++ [MusicCall.I_SetMusicVolume music_module_ref.music_oal_module s.snd_MusicVolume,
              MusicCall.I_RegisterSong music_module_ref.music_oal_module data size
                ((mods music_module_ref.music_oal_module).I_RegisterSong
                  ((mods music_module_ref.music_oal_module).I_SetMusicVolume s.world
                    s.snd_MusicVolume) data size).1] }) := by
  simp only [I_RegisterSong, hs, hopl, if_true, Bool.false_eq_true, if_false]

/-- C8: for a buffer whose first four bytes are neither `"MThd"` nor
`"MUS\x1a"`, `I_RegisterSong` makes OpenAL the active backend, sets its
volume and returns the handle of its `I_RegisterSong`.  If the MIDI-capable
backend is the OPL module, its `I_ShutdownMusic` is called first, before the
OpenAL calls; otherwise no shutdown is called at all. -/
theorem I_RegisterSong_stream {Ω : Type} (mods : music_module_ref → music_module_t Ω)
    (s : MusicState Ω) (data : List Nat) (size : Int)
    (h1 : data.take 4 ≠ MThd) (h2 : data.take 4 ≠ MUS_1a) :
    (s.midi_player_module = some music_module_ref.music_opl_module →
      ∃ (h : Nat) (s1 : MusicState Ω),
        I_RegisterSong mods s data size = .ok (h, s1) ∧
        s1.active_module = some music_module_ref.music_oal_module ∧
        h = ((mods music_module_ref.music_oal_module).I_RegisterSong
          ((mods music_module_ref.music_oal_module).I_SetMusicVolume
            ((mods music_module_ref.music_opl_module).I_ShutdownMusic s.world)
            s.snd_MusicVolume) data size).1 ∧
        s1.calls = s.calls ++ [MusicCall.I_ShutdownMusic music_module_ref.music_opl_module,
          MusicCall.I_SetMusicVolume music_module_ref.music_oal_module s.snd_MusicVolume,
          MusicCall.I_RegisterSong music_module_ref.music_oal_module data size h]) ∧
    (s.midi_player_module ≠ some music_module_ref.music_opl_module →
      ∃ (h : Nat) (s1 : MusicState Ω),
        I_RegisterSong mods s data size = .ok (h, s1) ∧
        s1.active_module = some music_module_ref.music_oal_module ∧
        h = ((mods music_module_ref.music_oal_module).I_RegisterSong
          ((mods music_module_ref.music_oal_module).I_SetMusicVolume s.world
            s.snd_MusicVolume) data size).1 ∧
        s1.calls = s.calls ++
          [MusicCall.I_SetMusicVolume music_module_ref.music_oal_module s.snd_MusicVolume,
           MusicCall.I_RegisterSong music_module_ref.music_oal_module data size h]) := by
  have hs : (IsMus data size || IsMid data size) = false := by
    simp [IsMid_of_take_ne data size h1, IsMus_of_take_ne data size h2]
  constructor
  · intro hopl
    refine ⟨_, _, I_RegisterSong_stream_opl_eq mods s data size hs hopl, rfl, rfl, ?_⟩
    simp
  · intro hopl
    exact ⟨_, _, I_RegisterSong_stream_other_eq mods s data size hs hopl, rfl, rfl, rfl⟩

theorem I_RegisterSong_stream_witness :
    (music_ready.midi_player_module = some music_module_ref.music_opl_module →
      ∃ (h : Nat) (s1 : MusicState (List music_module_ref)),
        I_RegisterSong list_music_modules music_ready [0x4F, 0x67, 0x67, 0x53, 0] 5
          = .ok (h, s1) ∧
        s1.active_module = some music_module_ref.music_oal_module ∧
        h = ((list_music_modules music_module_ref.music_oal_module).I_RegisterSong
          ((list_music_modules music_module_ref.music_oal_module).I_SetMusicVolume
            ((list_music_modules music_module_ref.music_opl_module).I_ShutdownMusic
              music_ready.world)
            music_ready.snd_MusicVolume) [0x4F, 0x67, 0x67, 0x53, 0] 5).1 ∧
        s1.calls = music_ready.calls ++
          [MusicCall.I_ShutdownMusic music_module_ref.music_opl_module,
           MusicCall.I_SetMusicVolume music_module_ref.music_oal_module
             music_ready.snd_MusicVolume,
           MusicCall.I_RegisterSong music_module_ref.music_oal_module
             [0x4F, 0x67, 0x67, 0x53, 0] 5 h]) ∧
    (music_ready.midi_player_module ≠ some music_module_ref.music_opl_module →
      ∃ (h : Nat) (s1 : MusicState (List music_module_ref)),
        I_RegisterSong list_music_modules music_ready [0x4F, 0x67, 0x67, 0x53, 0] 5
          = .ok (h, s1) ∧
        s1.active_module = some music_module_ref.music_oal_module ∧
        h = ((list_music_modules music_module_ref.music_oal_module).I_RegisterSong
          ((list_music_modules music_module_ref.music_oal_module).I_SetMusicVolume
            music_ready.world music_ready.snd_MusicVolume)
          [0x4F, 0x67, 0x67, 0x53, 0] 5).1 ∧
        s1.calls = music_ready.calls ++
          [MusicCall.I_SetMusicVolume music_module_ref.music_oal_module
             music_ready.snd_MusicVolume,
           MusicCall.I_RegisterSong music_module_ref.music_oal_module
             [0x4F, 0x67, 0x67, 0x53, 0] 5 h]) :=
  I_RegisterSong_stream list_music_modules music_ready [0x4F, 0x67, 0x67, 0x53, 0] 5
    (by decide) (by decide)

/-! ## Music: device index mapping -/

theorem devices_before_zero (tbl : List music_modules_t) : devices_before tbl 0 = 0 := by
  simp [devices_before]

theorem devices_before_cons (e : music_modules_t) (rest : List music_modules_t) (k : Nat) :
    devices_before (e :: rest) (k + 1) = e.num_devices + devices_before rest k := by
  simp [devices_before]

theorem devices_before_step (tbl : List music_modules_t) :
    ∀ (k : Nat) (e : music_modules_t), tbl[k]? = some e →
      devices_before tbl (k + 1) = devices_before tbl k + e.num_devices := by
  induction tbl with
  | nil => intro k e h; simp at h
  | cons a rest ih =>
    intro k e h
    cases k with
    | zero =>
      simp at h
      subst h
      simp [devices_before]
    | succ n =>
      have h2 : rest[n]? = some e := by simpa using h
      rw [devices_before_cons, devices_before_cons, ih n e h2]
      ring

theorem devices_before_mono (tbl : List music_modules_t)
    (hnn : ∀ e ∈ tbl, 0 ≤ e.num_devices) :
    ∀ (j k : Nat), j ≤ k → k ≤ tbl.length → devices_before tbl j ≤ devices_before tbl k := by
  intro j k hjk
  induction hjk with
  | refl => intro _; exact le_refl _
  | step hle ih =>
    rename_i m
    intro hk
    have hm : m < tbl.length := by omega
    have hget : tbl[m]? = some tbl[m] := List.getElem?_eq_getElem hm
    rw [devices_before_step tbl m _ hget]
    have := hnn tbl[m] (List.getElem_mem hm)
    have := ih (by omega)
    omega

theorem wrap_int_of_range (x : Int)
    (hlo : -(2 ^ (UINT_BITS - 1)) ≤ x) (hhi : x < 2 ^ (UINT_BITS - 1)) :
    wrap_int x = x := by
  simp only [wrap_int, UINT_BITS] at *
  norm_num at *
  omega

theorem devices_before_nonneg (tbl : List music_modules_t)
    (hnn : ∀ e ∈ tbl, 0 ≤ e.num_devices) : 0 ≤ devices_before tbl tbl.length := by
  have := devices_before_mono tbl hnn 0 tbl.length (by omega) (le_refl _)
  rwa [devices_before_zero] at this

theorem SetMidiPlayer_loop_resolves :
    ∀ (tbl : List music_modules_t) (i : Nat) (accum device : Int),
      (∀ e ∈ tbl, 0 ≤ e.num_devices) → 0 ≤ accum → accum ≤ device →
      device < accum + devices_before tbl tbl.length →
      accum + devices_before tbl tbl.length < 2 ^ (UINT_BITS - 1) →
      ∃ (k : Nat) (e : music_modules_t), tbl[k]? = some e ∧
        accum + devices_before tbl k ≤ device ∧
        device < accum + devices_before tbl (k + 1) ∧
        I_SetMidiPlayer.loop tbl i accum device
          = some (i + k, e.module, device - (accum + devices_before tbl k)) := by
  intro tbl
  induction tbl with
  | nil =>
    intro i accum device _ _ h0 h1 _
    simp [devices_before] at h1
    omega
  | cons a rest ih =>
    intro i accum device hnn hacc h0 h1 hfit
    have hlen : devices_before (a :: rest) (a :: rest).length
        = a.num_devices + devices_before rest rest.length := by
      simp [devices_before]
    have ha : 0 ≤ a.num_devices := hnn a (List.mem_cons_self _ _)
    have hrest : 0 ≤ devices_before rest rest.length :=
      devices_before_nonneg rest (fun e he => hnn e (List.mem_cons_of_mem _ he))
    rw [hlen] at h1 hfit
    have hpos : (0 : Int) ≤ 2 ^ (UINT_BITS - 1) := by positivity
    have hsum : wrap_int (accum + a.num_devices) = accum + a.num_devices :=
      wrap_int_of_range _ (by omega) (by omega)
    have hdiff : wrap_int (device - accum) = device - accum :=
      wrap_int_of_range _ (by omega) (by omega)
    by_cases hin : device < accum + a.num_devices
    · refine ⟨0, a, by simp, ?_, ?_, ?_⟩
      · simp [devices_before_zero]; exact h0
      · rw [devices_before_cons, devices_before_zero]; simpa using hin
      · simp [I_SetMidiPlayer.loop, hsum, hdiff, h0, hin, devices_before_zero]
    · obtain ⟨k, e, hk, hlo, hhi, hloop⟩ := ih (i + 1) (accum + a.num_devices) device
        (fun e he => hnn e (List.mem_cons_of_mem _ he)) (by omega) (by omega) (by omega)
        (by omega)
      refine ⟨k + 1, e, by simpa using hk, ?_, ?_, ?_⟩
      · rw [devices_before_cons]; omega
      · rw [devices_before_cons]; omega
      · have hcond : ¬ (device ≥ accum ∧ device < accum + a.num_devices) := fun h => hin h.2
        simp only [I_SetMidiPlayer.loop, hsum, hcond, if_false, hloop, devices_before_cons]
        congr 2
        · omega
        · congr 1
          omega

/-- C6 (as stated, refuted): with music disabled (`nomusicparm`) and the
table `[3, 1, 2]`, `I_SetMidiPlayer(4)` returns at once: `midi_player` keeps
its value `1` instead of becoming `2`, and no module is called.  With music
enabled but no MIDI-capable backend installed, the call goes through the
`NULL` pointer `midi_player_module`.  And with the counts
`[1, 2147483647, 1]`, whose sums leave the range of `int`, the index `5`
lies in the range `1..2147483648` of entry `1`, yet the loop matches no
entry: the module installed before (OPL) is asked to initialise device `5`,
not entry `1`'s module device `4`. -/
theorem I_SetMidiPlayer_counterexample :
    (0 : Int) ≤ 4 ∧ (4 : Int) < devices_before table_3_1_2 table_3_1_2.length ∧
    I_SetMidiPlayer list_music_modules { music_ready with nomusicparm := true } 4
      = .ok { music_ready with nomusicparm := true } ∧
    ({ music_ready with nomusicparm := true } : MusicState (List music_module_ref)).midi_player
      = 1 ∧
    ({ music_ready with nomusicparm := true } : MusicState (List music_module_ref)).calls
      = [] ∧
    I_SetMidiPlayer list_music_modules music_boot 4 = .error Fault.undefined_access ∧
    (∀ e ∈ table_overflow, 0 ≤ e.num_devices) ∧
    devices_before table_overflow 1 ≤ 5 ∧ (5 : Int) < devices_before table_overflow 2 ∧
    I_SetMidiPlayer.loop table_overflow 0 0 5 = none ∧
    I_SetMidiPlayer list_music_modules music_overflow 5 = .ok { music_overflow with
      world := [music_module_ref.music_fl_module, music_module_ref.music_oal_module]
      calls := [MusicCall.I_ShutdownMusic music_module_ref.music_opl_module,
        MusicCall.I_InitMusic music_module_ref.music_opl_module 5 false,
        MusicCall.I_InitMusic music_module_ref.music_win_module 0 false,
        MusicCall.I_InitMusic music_module_ref.music_fl_module 0 true]
      midi_player := 1
      midi_player_module := some music_module_ref.music_fl_module
      active_module := some music_module_ref.music_fl_module } :=
  ⟨by decide, by decide, rfl, rfl, rfl, rfl, by decide, by decide, by decide, by decide,
    rfl⟩

/-- C6 (amended): with music not disabled, a MIDI-capable backend `old`
installed, non-negative cached device counts whose total
`n_0 + ... + n_{k-1}` is within the range of `int` (below `2^31`), and a
global index `d` with
`0 <= d < n_0 + ... + n_{k-1}`, there is exactly one table index `i` with
`n_0 + ... + n_{i-1} <= d < n_0 + ... + n_i`; `I_SetMidiPlayer(d)` shuts
`old` down, sets `midi_player` to `i` and `midi_player_module` to entry
`i`'s module, and calls that module's `I_InitMusic` with the local index
`d - (n_0 + ... + n_{i-1})`.  If that call succeeds the module also becomes
the active backend; if it fails the result is that of `MidiPlayerFallback`
on the state reached. -/
theorem I_SetMidiPlayer_resolves {Ω : Type} (mods : music_module_ref → music_module_t Ω)
    (s : MusicState Ω) (d : Int) (old : music_module_ref)
    (hmus : s.nomusicparm = false)
    (hold : s.midi_player_module = some old)
    (hnn : ∀ e ∈ s.music_modules, 0 ≤ e.num_devices)
    (hfit : devices_before s.music_modules s.music_modules.length < 2 ^ (UINT_BITS - 1))
    (h0 : 0 ≤ d)
    (h1 : d < devices_before s.music_modules s.music_modules.length) :
    ∃ (i : Nat) (e : music_modules_t), s.music_modules[i]? = some e ∧
      devices_before s.music_modules i ≤ d ∧
      d < devices_before s.music_modules (i + 1) ∧
      (∀ j, j < s.music_modules.length → devices_before s.music_modules j ≤ d →
        d < devices_before s.music_modules (j + 1) → j = i) ∧
      I_SetMidiPlayer mods s d =
        (if ((mods e.module).I_InitMusic ((mods old).I_ShutdownMusic s.world)
              (d - devices_before s.music_modules i)).1 then
          .ok { s with
            world := ((mods e.module).I_InitMusic ((mods old).I_ShutdownMusic s.world)
              (d - devices_before s.music_modules i)).2
            calls := s.calls ++ [MusicCall.I_ShutdownMusic old,
              MusicCall.I_InitMusic e.module (d - devices_before s.music_modules i) true]
            midi_player := (i : Int)
            midi_player_module := some e.module
            active_module := some e.module }
        else
          MidiPlayerFallback mods { s with
            world := ((mods e.module).I_InitMusic ((mods old).I_ShutdownMusic s.world)
              (d - devices_before s.music_modules i)).2
            calls := s.calls ++ [MusicCall.I_ShutdownMusic old,
              MusicCall.I_InitMusic e.module (d - devices_before s.music_modules i) false]
            midi_player := (i : Int)
            midi_player_module := some e.module }) := by
  obtain ⟨i, e, hi, hlo, hhi, hloop⟩ :=
    SetMidiPlayer_loop_resolves s.music_modules 0 0 d hnn (le_refl _) h0
      (by simpa using h1) (by simpa using hfit)
  simp only [zero_add] at hlo hhi hloop
  have hilt : i < s.music_modules.length := by
    by_contra hge
    rw [List.getElem?_eq_none (by omega)] at hi
    cases hi
  refine ⟨i, e, hi, hlo, hhi, ?_, ?_⟩
  · intro j hj hjlo hjhi
    by_contra hne
    rcases Nat.lt_or_gt_of_ne hne with hlt | hgt
    · have := devices_before_mono s.music_modules hnn (j + 1) i (by omega) (by omega)
      omega
    · have := devices_before_mono s.music_modules hnn (i + 1) j (by omega) (by omega)
      omega
  · simp only [I_SetMidiPlayer, hmus, hold, hloop]
    cases hr : ((mods e.module).I_InitMusic ((mods old).I_ShutdownMusic s.world)
        (d - devices_before s.music_modules i)).1
    · simp [hr]
    · simp [hr]

theorem I_SetMidiPlayer_resolves_witness :
    music_ready.nomusicparm = false ∧
    devices_before table_3_1_2 table_3_1_2.length < 2 ^ (UINT_BITS - 1) ∧
    (0 : Int) ≤ 4 ∧ (4 : Int) < devices_before table_3_1_2 table_3_1_2.length ∧
    I_SetMidiPlayer list_music_modules music_ready 4 = .ok { music_ready with
      world := [music_module_ref.music_opl_module, music_module_ref.music_oal_module]
      calls := [MusicCall.I_ShutdownMusic music_module_ref.music_fl_module,
        MusicCall.I_InitMusic music_module_ref.music_opl_module 0 true]
      midi_player := 2
      midi_player_module := some music_module_ref.music_opl_module
      active_module := some music_module_ref.music_opl_module } := by
  refine ⟨rfl, by decide, by decide, by decide, ?_⟩
  obtain ⟨i, e, hi, _, _, huniq, heq⟩ :=
    I_SetMidiPlayer_resolves list_music_modules music_ready 4
      music_module_ref.music_fl_module rfl rfl (by decide) (by decide) (by decide) (by decide)
  have hi2 : 2 = i := huniq 2 (by decide) (by decide) (by decide)
  subst hi2
  have he : e = { module := music_module_ref.music_opl_module, num_devices := 2 } := by
    have : music_ready.music_modules[2]? = some e := hi
    simpa [music_ready, table_3_1_2] using this.symm
  subst he
  rw [heq]
  rfl

/-! ## Music: initialisation and fallback -/

theorem init_fails_at_cons {Ω : Type} (mods : music_module_ref → music_module_t Ω)
    (a : music_modules_t) (rest : List music_modules_t) (w : Ω) (j : Nat) :
    init_fails_at mods (a :: rest) w (j + 1) = true
      ↔ init_fails_at mods rest ((mods a.module).I_InitMusic w 0).2 j = true := by
  simp [init_fails_at, world_after_inits]

theorem init_fails_at_head {Ω : Type} (mods : music_module_ref → music_module_t Ω)
    (a : music_modules_t) (rest : List music_modules_t) (w : Ω) :
    init_fails_at mods (a :: rest) w 0 = true
      ↔ ((mods a.module).I_InitMusic w 0).1 = false := by
  simp [init_fails_at, world_after_inits]

theorem fallback_loop_fatal {Ω : Type} (mods : music_module_ref → music_module_t Ω) :
    ∀ (tbl : List music_modules_t) (i : Nat) (s : MusicState Ω),
      (∀ j, init_fails_at mods tbl s.world j = true) →
      MidiPlayerFallback.loop mods tbl i s
        = .error (Fault.I_Error "MidiPlayerFallback: No music module could be initialized") := by
  intro tbl
  induction tbl with
  | nil => intro i s _; rfl
  | cons a rest ih =>
    intro i s hall
    have h0 := (init_fails_at_head mods a rest s.world).mp (hall 0)
    simp only [MidiPlayerFallback.loop, h0, Bool.false_eq_true, if_false]
    exact ih (i + 1) _ (fun j => (init_fails_at_cons mods a rest s.world j).mp (hall (j + 1)))

theorem fallback_loop_ok {Ω : Type} (mods : music_module_ref → music_module_t Ω) :
    ∀ (tbl : List music_modules_t) (i : Nat) (s : MusicState Ω) (k : Nat)
      (e : music_modules_t), tbl[k]? = some e →
      (∀ j, j < k → init_fails_at mods tbl s.world j = true) →
      ((mods e.module).I_InitMusic (world_after_inits mods (tbl.take k) s.world) 0).1 = true →
      MidiPlayerFallback.loop mods tbl i s = .ok { s with
        world := ((mods e.module).I_InitMusic
          (world_after_inits mods (tbl.take k) s.world) 0).2
        calls := s.calls ++ (failed_inits (tbl.take k)
          ++ [MusicCall.I_InitMusic e.module 0 true])
        midi_player := ((i + k : Nat) : Int)
        midi_player_module := some e.module
        active_module := some e.module } := by
  intro tbl
  induction tbl with
  | nil => intro i s k e h; simp at h
  | cons a rest ih =>
    intro i s k e hk hfail hok
    cases k with
    | zero =>
      simp at hk
      subst hk
      simp only [List.take_zero, world_after_inits] at hok
      simp [MidiPlayerFallback.loop, hok, world_after_inits, failed_inits]
    | succ n =>
      have h0 := (init_fails_at_head mods a rest s.world).mp (hfail 0 (by omega))
      have hk2 : rest[n]? = some e := by simpa using hk
      simp only [MidiPlayerFallback.loop, h0, Bool.false_eq_true, if_false]
      rw [ih (i + 1) _ n e hk2
        (fun j hj => (init_fails_at_cons mods a rest s.world j).mp (hfail (j + 1) (by omega)))
        (by simpa [world_after_inits] using hok)]
      simp only [List.take_succ_cons, world_after_inits, failed_inits, List.map_cons,
        List.append_assoc, List.singleton_append, List.cons_append]
      congr 2
      omega

theorem fallback_loop_error_iff {Ω : Type} (mods : music_module_ref → music_module_t Ω)
    (tbl : List music_modules_t) (i : Nat) (s : MusicState Ω) :
    (∃ f, MidiPlayerFallback.loop mods tbl i s = .error f)
      ↔ ∀ j, init_fails_at mods tbl s.world j = true := by
  constructor
  · rintro ⟨f, hf⟩
    by_contra hnot
    push_neg at hnot
    let k := Nat.find hnot
    have hk : ¬ init_fails_at mods tbl s.world k = true := Nat.find_spec hnot
    have hmin : ∀ j, j < k → init_fails_at mods tbl s.world j = true := fun j hj =>
      not_not.mp (Nat.find_min hnot hj)
    cases he : tbl[k]? with
    | none => exact hk (by simp [init_fails_at, he])
    | some e =>
      have hok : ((mods e.module).I_InitMusic
          (world_after_inits mods (tbl.take k) s.world) 0).1 = true := by
        simpa [init_fails_at, he] using hk
      rw [fallback_loop_ok mods tbl i s k e he hmin hok] at hf
      cases hf
  · intro hall
    exact ⟨_, fallback_loop_fatal mods tbl i s hall⟩

theorem table_at_of_index_below (tbl : List music_modules_t) (i : Int)
    (h : index_below i tbl.length = true) : ∃ e, table_at tbl i = some e := by
  simp only [index_below, Bool.and_eq_true, decide_eq_true_eq] at h
  have hlt : i.toNat < tbl.length := by omega
  refine ⟨tbl[i.toNat], ?_⟩
  have hneg : ¬ i < 0 := by omega
  simp [table_at, hneg, List.getElem?_eq_getElem hlt]

theorem I_InitMusic_enters_fallback {Ω : Type} (D : Int)
    (mods : music_module_ref → music_module_t Ω) (s : MusicState Ω)
    (hmus : s.nomusicparm = false) (hpref : preferred_fails D mods s = true) :
    I_InitMusic D mods s =
      match MidiPlayerFallback mods (before_fallback D mods s) with
      | .error f => .error f
      | .ok s3 => .ok (true, s3) := by
  cases hidx : index_below s.midi_player s.music_modules.length
  · simp [I_InitMusic, before_fallback, hmus, hidx]
  · obtain ⟨e, he⟩ := table_at_of_index_below s.music_modules s.midi_player hidx
    have hfail : ((mods e.module).I_InitMusic
        ((mods music_module_ref.music_oal_module).I_InitMusic s.world 0).2 D).1 = false := by
      simpa [preferred_fails, hidx, he] using hpref
    simp [I_InitMusic, before_fallback, hmus, hidx, he, hfail]

/-- C9: when music is not disabled and the preferred module did not
initialise (its `I_InitMusic` returned `false`, or `midi_player` is outside
the table), `I_InitMusic` tries the table entries in order at device `0`:
if entry `k` is the first whose `I_InitMusic(0)` succeeds, the call returns
`true` with `midi_player = k` and entry `k`'s module installed as both
`midi_player_module` and `active_module`, having logged one failed call for
each earlier entry and then the successful one; and the call ends in the
`I_Error` of `MidiPlayerFallback` if and only if every entry's
`I_InitMusic(0)` fails. -/
theorem I_InitMusic_fallback {Ω : Type} (D : Int)
    (mods : music_module_ref → music_module_t Ω) (s : MusicState Ω)
    (hmus : s.nomusicparm = false) (hpref : preferred_fails D mods s = true) :
    (I_InitMusic D mods s
        = .error (Fault.I_Error "MidiPlayerFallback: No music module could be initialized")
      ↔ ∀ j, init_fails_at mods s.music_modules (before_fallback D mods s).world j = true) ∧
    (∀ f, I_InitMusic D mods s = .error f →
      f = Fault.I_Error "MidiPlayerFallback: No music module could be initialized") ∧
    (∀ (k : Nat) (e : music_modules_t), s.music_modules[k]? = some e →
      (∀ j, j < k →
        init_fails_at mods s.music_modules (before_fallback D mods s).world j = true) →
      ((mods e.module).I_InitMusic
        (world_after_inits mods (s.music_modules.take k) (before_fallback D mods s).world)
        0).1 = true →
      I_InitMusic D mods s = .ok (true, { before_fallback D mods s with
        world := ((mods e.module).I_InitMusic
          (world_after_inits mods (s.music_modules.take k) (before_fallback D mods s).world)
          0).2
        calls := (before_fallback D mods s).calls ++ (failed_inits (s.music_modules.take k)
          ++ [MusicCall.I_InitMusic e.module 0 true])
        midi_player := (k : Int)
        midi_player_module := some e.module
        active_module := some e.module })) := by
  have henter := I_InitMusic_enters_fallback D mods s hmus hpref
  have htbl : (before_fallback D mods s).music_modules = s.music_modules := by
    simp only [before_fallback]
    split <;> rfl
  have hiff := fallback_loop_error_iff mods s.music_modules 0 (before_fallback D mods s)
  refine ⟨⟨fun herr => ?_, fun hall => ?_⟩, fun f herr => ?_, fun k e hk hfail hok => ?_⟩
  · apply hiff.mp
    rw [henter] at herr
    simp only [MidiPlayerFallback, htbl] at herr
    cases hloop : MidiPlayerFallback.loop mods s.music_modules 0 (before_fallback D mods s) with
    | error f => exact ⟨f, rfl⟩
    | ok s3 => rw [hloop] at herr; cases herr
  · rw [henter]
    simp only [MidiPlayerFallback, htbl]
    rw [fallback_loop_fatal mods s.music_modules 0 _ hall]
  · rw [henter] at herr
    simp only [MidiPlayerFallback, htbl] at herr
    cases hloop : MidiPlayerFallback.loop mods s.music_modules 0 (before_fallback D mods s) with
    | error g =>
      rw [hloop] at herr
      have hall := hiff.mp ⟨g, hloop⟩
      rw [fallback_loop_fatal mods s.music_modules 0 _ hall] at hloop
      cases hloop
      cases herr
      rfl
    | ok s3 => rw [hloop] at herr; cases herr
  · rw [henter]
    simp only [MidiPlayerFallback, htbl]
    rw [fallback_loop_ok mods s.music_modules 0 _ k e hk hfail hok]
    simp [htbl]

theorem I_InitMusic_fallback_witness :
    music_boot.nomusicparm = false ∧
    preferred_fails (-1) list_music_modules music_boot = true ∧
    (∀ j, j < 1 → init_fails_at list_music_modules music_boot.music_modules
      (before_fallback (-1) list_music_modules music_boot).world j = true) ∧
    I_InitMusic (-1) list_music_modules music_boot
      = .ok (true, { before_fallback (-1) list_music_modules music_boot with
        world := ((list_music_modules music_module_ref.music_fl_module).I_InitMusic
          (world_after_inits list_music_modules (music_boot.music_modules.take 1)
            (before_fallback (-1) list_music_modules music_boot).world) 0).2
        calls := (before_fallback (-1) list_music_modules music_boot).calls
          ++ (failed_inits (music_boot.music_modules.take 1)
          ++ [MusicCall.I_InitMusic music_module_ref.music_fl_module 0 true])
        midi_player := ((1 : Nat) : Int)
        midi_player_module := some music_module_ref.music_fl_module
        active_module := some music_module_ref.music_fl_module }) :=
  ⟨rfl, rfl,
    fun j hj => by
      have hj0 : j = 0 := by omega
      subst hj0
      rfl,
    (I_InitMusic_fallback (-1) list_music_modules music_boot rfl rfl).2.2
      1 { module := music_module_ref.music_fl_module, num_devices := 1 } rfl
      (fun j hj => by
        have hj0 : j = 0 := by omega
        subst hj0
        rfl)
      rfl⟩

/-! ## Sound: the query operations -/

/-- C12 (as stated, refuted): two pool states with the same slot contents
(slot `0` enabled with descriptor `5`), differing only in what the backend is
playing, get different answers from `I_SoundIsPlaying(0)`, and the call is
recorded in the log of backend calls: the answer comes from the backend, not
from the slot. -/
theorem I_SoundIsPlaying_backend_counterexample :
    ({ sound_one_busy with backend := [] } : SoundState (List Int)).channelinfo
      = sound_one_busy.channelinfo ∧
    (0 : Int) < (build4.MAX_CHANNELS : Int) ∧
    I_SoundIsPlaying build4 list_sound_module sound_one_busy 0
      = .ok (true, { sound_one_busy with
          calls := sound_one_busy.calls ++ [SoundCall.SoundIsPlaying 0] }) ∧
    I_SoundIsPlaying build4 list_sound_module { sound_one_busy with backend := [] } 0
      = .ok (false, { sound_one_busy with
          backend := []
          calls := sound_one_busy.calls ++ [SoundCall.SoundIsPlaying 0] }) :=
  ⟨rfl, by decide, rfl, rfl⟩

/-- C12 (amended): for every pool state and every in-range channel index,
`I_SoundID` is a pure read: it returns `0` when sound is not initialised and
the slot's `idnum` otherwise, and the state after the call (slots, backend,
call log) is the state before it.  `I_SoundIsPlaying` does not read the
slot: when sound is not initialised it returns `false` and changes nothing;
otherwise it makes exactly one `SoundIsPlaying(channel)` call to the backend
and returns its answer, leaving every slot and the id counter unchanged. -/
theorem query_operations {β : Type} (B : Build) (M : sound_module_t β)
    (s : SoundState β) (channel : Int)
    (h0 : 0 ≤ channel) (h1 : channel < (B.MAX_CHANNELS : Int)) :
    I_SoundID B s channel
      = .ok (if s.snd_init then (s.channelinfo channel.toNat).idnum else 0, s) ∧
    (s.snd_init = false → I_SoundIsPlaying B M s channel = .ok (false, s)) ∧
    (s.snd_init = true →
      I_SoundIsPlaying B M s channel
        = .ok ((M.SoundIsPlaying s.backend channel).1,
            { s with
              backend := (M.SoundIsPlaying s.backend channel).2
              calls := s.calls ++ [SoundCall.SoundIsPlaying channel] })) := by
  have hr := out_of_range_false B channel h0 h1
  refine ⟨?_, ?_, ?_⟩
  · cases hinit : s.snd_init
    · simp [I_SoundID, hinit]
    · simp [I_SoundID, hinit, hr]
  · intro hinit
    simp [I_SoundIsPlaying, hinit]
  · intro hinit
    simp [I_SoundIsPlaying, hinit, hr]

theorem query_operations_witness :
    I_SoundID build4 sound_one_busy 0
      = .ok (if sound_one_busy.snd_init
          then (sound_one_busy.channelinfo (0 : Int).toNat).idnum else 0, sound_one_busy) ∧
    (sound_one_busy.snd_init = false →
      I_SoundIsPlaying build4 list_sound_module sound_one_busy 0
        = .ok (false, sound_one_busy)) ∧
    (sound_one_busy.snd_init = true →
      I_SoundIsPlaying build4 list_sound_module sound_one_busy 0
        = .ok ((list_sound_module.SoundIsPlaying sound_one_busy.backend 0).1,
            { sound_one_busy with
              backend := (list_sound_module.SoundIsPlaying sound_one_busy.backend 0).2
              calls := sound_one_busy.calls ++ [SoundCall.SoundIsPlaying 0] })) :=
  query_operations build4 list_sound_module sound_one_busy 0 (by decide) (by decide)

/-! ## Music: device enumeration -/

theorem push_all_eq : ∀ (l devices : List String),
    I_DeviceList.push_all devices l = devices ++ l := by
  intro l
  induction l with
  | nil => intro devices; simp [I_DeviceList.push_all]
  | cons x rest ih =>
    intro devices
    simp [I_DeviceList.push_all, array_push, ih]

theorem listed_before_zero (L : List (List String × Int)) : listed_before L 0 = 0 := by
  simp [listed_before]

theorem listed_before_cons (l : List String × Int) (L : List (List String × Int)) (k : Nat) :
    listed_before (l :: L) (k + 1) = (l.1.length : Int) + listed_before L k := by
  simp [listed_before]

theorem DeviceList_loop_spec {Ω : Type} (mods : music_module_ref → music_module_t Ω)
    (mp : Int) :
    ∀ (tbl : List music_modules_t) (i : Nat) (devices : List String) (cur : Int) (w : Ω)
      (calls : List MusicCall),
      (I_DeviceList.loop mods mp tbl i devices cur w calls).devices
        = devices ++ ((listings mods tbl w).map Prod.fst).flatten ∧
      (I_DeviceList.loop mods mp tbl i devices cur w calls).entries.map (fun e => e.module)
        = tbl.map (fun e => e.module) ∧
      (I_DeviceList.loop mods mp tbl i devices cur w calls).entries.map
          (fun e => e.num_devices)
        = (listings mods tbl w).map (fun l => (l.1.length : Int)) ∧
      (I_DeviceList.loop mods mp tbl i devices cur w calls).calls
        = calls ++ tbl.map (fun e => MusicCall.I_DeviceList e.module) ∧
      (∀ (k : Nat) (l : List String × Int), mp = ((i + k : Nat) : Int) →
        (listings mods tbl w)[k]? = some l →
        (I_DeviceList.loop mods mp tbl i devices cur w calls).current_device
          = wrap_int ((devices.length : Int) + listed_before (listings mods tbl w) k + l.2)) ∧
      ((∀ k, k < tbl.length → mp ≠ ((i + k : Nat) : Int)) →
        (I_DeviceList.loop mods mp tbl i devices cur w calls).current_device = cur) := by
  intro tbl
  induction tbl with
  | nil =>
    intro i devices cur w calls
    simp [I_DeviceList.loop, listings]
  | cons e rest ih =>
    intro i devices cur w calls
    obtain ⟨h1, h2, h3, h4, h5, h6⟩ := ih (i + 1)
      (devices ++ ((mods e.module).I_DeviceList w).1.1)
      (if mp = (i : Int) then
        wrap_int ((devices.length : Int) + ((mods e.module).I_DeviceList w).1.2)
        else cur)
      ((mods e.module).I_DeviceList w).2 (calls ++ [MusicCall.I_DeviceList e.module])
    have hloop : I_DeviceList.loop mods mp (e :: rest) i devices cur w calls =
        { I_DeviceList.loop mods mp rest (i + 1)
            (devices ++ ((mods e.module).I_DeviceList w).1.1)
            (if mp = (i : Int) then
              wrap_int ((devices.length : Int) + ((mods e.module).I_DeviceList w).1.2)
              else cur)
            ((mods e.module).I_DeviceList w).2 (calls ++ [MusicCall.I_DeviceList e.module])
          with entries :=
            { e with num_devices := ((((mods e.module).I_DeviceList w).1.1.length : Nat) : Int) }
              :: (I_DeviceList.loop mods mp rest (i + 1)
                (devices ++ ((mods e.module).I_DeviceList w).1.1)
                (if mp = (i : Int) then
                  wrap_int ((devices.length : Int) + ((mods e.module).I_DeviceList w).1.2)
                  else cur)
                ((mods e.module).I_DeviceList w).2
                (calls ++ [MusicCall.I_DeviceList e.module])).entries } := by
      simp only [I_DeviceList.loop, push_all_eq, array_size]
    rw [hloop]
    refine ⟨?_, ?_, ?_, ?_, ?_, ?_⟩
    · simp only [h1, listings]
      simp
    · simp only [List.map_cons, h2]
    · simp only [List.map_cons, h3, listings]
    · simp only [h4]
      simp
    · intro k l hk hl
      cases k with
      | zero =>
        have hmp : mp = (i : Int) := by simpa using hk
        have hl0 : ((mods e.module).I_DeviceList w).1 = l := by
          simpa [listings] using hl
        have hrest : ∀ k, k < rest.length → mp ≠ ((i + 1 + k : Nat) : Int) := by
          intro k _
          rw [hmp]
          push_cast
          omega
        simp only [h6 hrest]
        simp [hmp, listed_before_zero, hl0]
      | succ n =>
        have hl2 : (listings mods rest ((mods e.module).I_DeviceList w).2)[n]? = some l := by
          simpa [listings] using hl
        have hk2 : mp = ((i + 1 + n : Nat) : Int) := by
          rw [hk]
          push_cast
          omega
        simp only [h5 n l hk2 hl2]
        simp only [listings, listed_before_cons, List.length_append]
        congr 1
        push_cast
        ring
    · intro hno
      have hne : mp ≠ (i : Int) := by
        have := hno 0 (by simp)
        simpa using this
      have hrest : ∀ k, k < rest.length → mp ≠ ((i + 1 + k : Nat) : Int) := by
        intro k hk
        have := hno (k + 1) (by simpa using hk)
        intro h
        apply this
        rw [h]
        push_cast
        omega
      simp only [h6 hrest]
      simp [hne]

theorem I_DeviceList_no_selection {Ω : Type} (mods : music_module_ref → music_module_t Ω)
    (s : MusicState Ω)
    (hno : ∀ k, k < s.music_modules.length → s.midi_player ≠ (k : Int)) :
    (I_DeviceList mods s).1.2 = 0 := by
  have h := (DeviceList_loop_spec mods s.midi_player s.music_modules 0 [] 0 s.world
    s.calls).2.2.2.2.2 (by simpa using hno)
  simpa [I_DeviceList] using h

/-- C11: with `midi_player` selecting table entry `k`, `I_DeviceList` returns
the concatenation, in table order, of the device lists returned by the
modules of the table; it stores in `*current_device` the `int` sum of the
total number of devices returned by the modules before entry `k` and the
local current index reported by entry `k`'s module, which is that total plus
that index whenever this number lies in the range of `int`; afterwards every
table entry keeps its module and caches as `num_devices` the length of the
list its module returned; and each module of the table was asked exactly
once, in table order. -/
theorem I_DeviceList_concat {Ω : Type} (mods : music_module_ref → music_module_t Ω)
    (s : MusicState Ω) (k : Nat) (l : List String × Int)
    (hk : s.midi_player = (k : Int))
    (hl : (listings mods s.music_modules s.world)[k]? = some l) :
    (I_DeviceList mods s).1.1
      = ((listings mods s.music_modules s.world).map Prod.fst).flatten ∧
    (I_DeviceList mods s).1.2
      = wrap_int (listed_before (listings mods s.music_modules s.world) k + l.2) ∧
    (-(2 ^ (UINT_BITS - 1)) ≤ listed_before (listings mods s.music_modules s.world) k + l.2 →
      listed_before (listings mods s.music_modules s.world) k + l.2 < 2 ^ (UINT_BITS - 1) →
      (I_DeviceList mods s).1.2
        = listed_before (listings mods s.music_modules s.world) k + l.2) ∧
    (I_DeviceList mods s).2.music_modules.map (fun e => e.module)
      = s.music_modules.map (fun e => e.module) ∧
    (I_DeviceList mods s).2.music_modules.map (fun e => e.num_devices)
      = (listings mods s.music_modules s.world).map (fun l => (l.1.length : Int)) ∧
    (I_DeviceList mods s).2.calls
      = s.calls ++ s.music_modules.map (fun e => MusicCall.I_DeviceList e.module) := by
  obtain ⟨h1, h2, h3, h4, h5, _⟩ :=
    DeviceList_loop_spec mods s.midi_player s.music_modules 0 [] 0 s.world s.calls
  have hcur : (I_DeviceList mods s).1.2
      = wrap_int (listed_before (listings mods s.music_modules s.world) k + l.2) := by
    have := h5 k l (by simpa using hk) hl
    simpa [I_DeviceList] using this
  refine ⟨?_, hcur, ?_, h2, h3, h4⟩
  · simpa [I_DeviceList] using h1
  · intro hlo hhi
    rw [hcur, wrap_int_of_range _ hlo hhi]

theorem I_DeviceList_concat_witness :
    music_uncounted.midi_player = ((2 : Nat) : Int) ∧
    (listings list_music_modules music_uncounted.music_modules music_uncounted.world)[2]?
      = some (["OPL2", "OPL3"], 1) ∧
    (I_DeviceList list_music_modules music_uncounted).1.1
      = ["Wavetable", "Port A", "Port B", "FluidSynth", "OPL2", "OPL3"] ∧
    (I_DeviceList list_music_modules music_uncounted).1.2 = 4 + 1 ∧
    (I_DeviceList list_music_modules music_uncounted).2.music_modules.map (fun e => e.module)
      = music_uncounted.music_modules.map (fun e => e.module) ∧
    (I_DeviceList list_music_modules music_uncounted).2.music_modules.map
        (fun e => e.num_devices)
      = [3, 1, 2] ∧
    (I_DeviceList list_music_modules music_uncounted).2.calls
      = [MusicCall.I_DeviceList music_module_ref.music_win_module,
         MusicCall.I_DeviceList music_module_ref.music_fl_module,
         MusicCall.I_DeviceList music_module_ref.music_opl_module] := by
  obtain ⟨hdev, _, hsum, hmod, hnum, hcalls⟩ :=
    I_DeviceList_concat list_music_modules music_uncounted 2 (["OPL2", "OPL3"], 1) rfl rfl
  exact ⟨rfl, rfl, hdev, hsum (by decide) (by decide), hmod, hnum, hcalls⟩

/-! ## macOS music backend: the update tick -/

/-- C13 (as stated, refuted): after `I_MAC_PlaySong` of a non-looping song
whose longest track has length `45`, a tick that observes the playhead at
`50` only queries the time: `is_playing` stays set and the player keeps
running, where `I_MAC_StopSong` would clear the flag and stop the player. -/
theorem I_MAC_UpdateMusic_end_counterexample :
    (mac_playing_at false 50).music_initialized = true ∧
    (mac_playing_at false 50).is_playing = true ∧
    (mac_playing_at false 50).is_looping = false ∧
    (mac_playing_at false 50).endtime = 45 ∧
    (toy_toolbox.MusicPlayerGetTime (mac_playing_at false 50).toolbox).1 = 50 ∧
    I_MAC_UpdateMusic toy_toolbox (mac_playing_at false 50)
      = { mac_playing_at false 50 with
          calls := (mac_playing_at false 50).calls ++ [ToolboxCall.MusicPlayerGetTime] } ∧
    (I_MAC_UpdateMusic toy_toolbox (mac_playing_at false 50)).is_playing = true ∧
    (I_MAC_UpdateMusic toy_toolbox (mac_playing_at false 50)).toolbox.running = true ∧
    (I_MAC_StopSong toy_toolbox (mac_playing_at false 50) 1).is_playing = false ∧
    (I_MAC_StopSong toy_toolbox (mac_playing_at false 50) 1).toolbox.running = false := by
  decide

/-- C13 (amended): a tick of `I_MAC_UpdateMusic` while the backend is not
initialised or no song is playing makes no call and changes nothing.  With
the backend initialised and a song playing, the tick queries the playback
time; if that time is before `endtime`, or the song is not looping, nothing
else happens (in particular playback is not stopped at the end of a
non-looping song); if the time is at or past `endtime` and the song is
looping, the playhead is set to `0`.  In every case `music_initialized`,
`is_playing`, `is_looping` and `endtime` keep their values. -/
theorem I_MAC_UpdateMusic_tick {Ω : Type} (T : AudioToolbox Ω) (s : MacMusicState Ω) :
    ((s.music_initialized = false ∨ s.is_playing = false) → I_MAC_UpdateMusic T s = s) ∧
    (s.music_initialized = true → s.is_playing = true →
      ((T.MusicPlayerGetTime s.toolbox).1 < s.endtime ∨ s.is_looping = false) →
      I_MAC_UpdateMusic T s = { s with
        toolbox := (T.MusicPlayerGetTime s.toolbox).2
        calls := s.calls ++ [ToolboxCall.MusicPlayerGetTime] }) ∧
    (s.music_initialized = true → s.is_playing = true →
      s.endtime ≤ (T.MusicPlayerGetTime s.toolbox).1 → s.is_looping = true →
      I_MAC_UpdateMusic T s = { s with
        toolbox := (T.MusicPlayerSetTime (T.MusicPlayerGetTime s.toolbox).2 0).2
        calls := s.calls ++ [ToolboxCall.MusicPlayerGetTime,
          ToolboxCall.MusicPlayerSetTime 0] }) ∧
    (I_MAC_UpdateMusic T s).music_initialized = s.music_initialized ∧
    (I_MAC_UpdateMusic T s).is_playing = s.is_playing ∧
    (I_MAC_UpdateMusic T s).is_looping = s.is_looping ∧
    (I_MAC_UpdateMusic T s).endtime = s.endtime := by
  refine ⟨?_, ?_, ?_, ?_⟩
  · rintro (h | h) <;> simp [I_MAC_UpdateMusic, h]
  · intro hinit hplay hcase
    rcases hcase with h | h
    · simp [I_MAC_UpdateMusic, hinit, hplay, h]
    · simp [I_MAC_UpdateMusic, hinit, hplay, h]
  · intro hinit hplay hend hloop
    have hnot : ¬ (T.MusicPlayerGetTime s.toolbox).1 < s.endtime := not_lt.mpr hend
    simp [I_MAC_UpdateMusic, hinit, hplay, hnot, hloop]
  · unfold I_MAC_UpdateMusic
    split
    · exact ⟨rfl, rfl, rfl, rfl⟩
    · simp only []
      split
      · exact ⟨rfl, rfl, rfl, rfl⟩
      · split <;> exact ⟨rfl, rfl, rfl, rfl⟩

/-- The looping counterpart of the tick at the end of the song: the playhead
of the toy player goes back to `0` and the song keeps playing. -/
theorem I_MAC_UpdateMusic_loop_example :
    (mac_playing_at true 50).is_looping = true ∧
    I_MAC_UpdateMusic toy_toolbox (mac_playing_at true 50)
      = { mac_playing_at true 50 with
          toolbox := { time := 0, running := true, track_lengths := [30, 45] }
          calls := (mac_playing_at true 50).calls
            ++ [ToolboxCall.MusicPlayerGetTime, ToolboxCall.MusicPlayerSetTime 0] } ∧
    I_MAC_UpdateMusic toy_toolbox (mac_playing_at true 44)
      = { mac_playing_at true 44 with
          calls := (mac_playing_at true 44).calls ++ [ToolboxCall.MusicPlayerGetTime] } ∧
    I_MAC_UpdateMusic toy_toolbox mac_idle = mac_idle := by
  decide

end Woof
